import Mathlib

/-!
Verification development for the `add_aiplugins_to_xcode.py` tool of the
squirrel_llm repository.  The tool edits an Xcode `project.pbxproj` document:
it discovers Swift source files and resource files on disk, synthesizes
`PBXFileReference` and `PBXBuildFile` records keyed by fresh identifiers, and
patches four regions of the descriptor text (the PBXFileReference section, the
PBXBuildFile section, the children list of the well-known Sources group, and
the files list of the well-known Sources build phase).

The embedding models document text as `List Char`.  Python string operations
used by the source (`str.replace`, `re.search` with literal-separated
non-greedy groups, `str.count`-style occurrence counting, `os.path.basename`,
`sorted`, `os.walk`) are given executable definitions below, and the script's
functions are translated one-to-one on top of them.  Randomness
(`uuid.uuid4().hex[:24].upper()`) is modelled by an explicit identifier stream
`u : Nat → List Char` consumed in the same order as the script calls
`generate_uuid`.
-/

set_option maxRecDepth 100000

/-- Tail-recursive scan behind `findIdx`: the first index `≥ i` (counting
from the original start) at which `pat` occurs. -/
def findIdxAux (pat : List Char) (i : Nat) : List Char → Option Nat
  | [] => if pat.isEmpty then some i else none
  | c :: cs => if pat.isPrefixOf (c :: cs) then some i else findIdxAux pat (i + 1) cs

/-- First index at which `pat` occurs in the list (Python `str.find` when the
result is non-negative); `none` when `pat` does not occur.  An empty pattern
occurs at index 0, as in Python. -/
def findIdx (pat s : List Char) : Option Nat :=
  findIdxAux pat 0 s

/-- First index `≥ start` at which `pat` occurs in `s`. -/
def findFrom (s pat : List Char) (start : Nat) : Option Nat :=
  (findIdx pat (s.drop start)).map (· + start)

/-- `True` iff `pat` occurs somewhere in `s` (Python `pat in s`). -/
def occursIn (pat s : List Char) : Bool :=
  (findFrom s pat 0).isSome

/-- The slice `s[a:b]` (Python slicing semantics for `0 ≤ a ≤ b`). -/
def seg (s : List Char) (a b : Nat) : List Char :=
  (s.drop a).take (b - a)

/-- Replacement of every occurrence of a non-empty `old`, scanning left to
right without rescanning the replacement text — the semantics of Python
`s.replace(old, new)` for non-empty `old`.  The scan consumes exactly one
character of the text per step (which keeps the recursion structural): on a
match it emits `new`, drops the matched head character and remembers in the
first argument how many of the remaining matched characters are still to be
skipped without being emitted. -/
def pyReplaceGo (old new : List Char) : Nat → List Char → List Char
  | _, [] => []
  | skip + 1, _ :: cs => pyReplaceGo old new skip cs
  | 0, c :: cs =>
    if old.isPrefixOf (c :: cs) then new ++ pyReplaceGo old new (old.length - 1) cs
    else c :: pyReplaceGo old new 0 cs

/-- Python `s.replace(old, new)`: for an empty `old` the replacement is
inserted before every character and at the end (`"abc".replace("", "X") =
"XaXbXcX"`); otherwise every non-overlapping occurrence is replaced left to
right. -/
def pyReplace (s old new : List Char) : List Char :=
  if old.isEmpty then new ++ s.flatMap (fun c => c :: new)
  else pyReplaceGo old new 0 s

/-- Number of indices of `s` at which the non-empty pattern `pat` occurs
(used only with patterns that cannot overlap themselves, where this agrees
with Python `s.count(pat)`). -/
def countOcc (pat : List Char) : List Char → Nat
  | [] => 0
  | c :: cs => (if pat.isPrefixOf (c :: cs) then 1 else 0) + countOcc pat cs

/-- `os.path.basename` for POSIX paths: everything after the last slash. -/
def basename (p : List Char) : List Char :=
  p.foldl (fun acc c => if c = '/' then [] else acc ++ [c]) []

/-- A character matched by the regex class `[A-F0-9]`. -/
def isHexUpper (c : Char) : Bool :=
  decide (('0' ≤ c ∧ c ≤ '9') ∨ ('A' ≤ c ∧ c ≤ 'F'))

/-- Leftmost match of the regex `[A-F0-9]{24}`: the first window of 24
consecutive `[A-F0-9]` characters, as `re.search(r'([A-F0-9]{24})', s)`. -/
def findHex24 : List Char → Option (List Char)
  | [] => none
  | c :: cs =>
    let w := (c :: cs).take 24
    if w.length = 24 && w.all isHexUpper then some w
    else findHex24 cs

/-- Code-point comparison of strings, strict (Python `<` on `str`). -/
def strLtB : List Char → List Char → Bool
  | [], [] => false
  | [], _ :: _ => true
  | _ :: _, [] => false
  | a :: as, b :: bs => if a < b then true else if b < a then false else strLtB as bs

/-- Code-point comparison of strings, non-strict (Python `<=` on `str`). -/
def strLeB : List Char → List Char → Bool
  | [], _ => true
  | _ :: _, [] => false
  | a :: as, b :: bs => if a < b then true else if b < a then false else strLeB as bs

/-- The ordering relation used to model Python `sorted` on a list of paths. -/
def strRel (a b : List Char) : Prop := strLeB a b = true

instance : DecidableRel strRel := fun a b =>
  inferInstanceAs (Decidable (strLeB a b = true))

/-- Python `sorted` on a list of strings (total code-point order, so the
sorted permutation is unique and the sorting algorithm is irrelevant). -/
def sortStrs (l : List (List Char)) : List (List Char) :=
  List.insertionSort strRel l

/-- Lexicographic comparison of `(path, kind)` pairs — Python `<=` on
2-tuples of strings. -/
def pairLeB (x y : List Char × List Char) : Bool :=
  if strLtB x.1 y.1 then true
  else if strLtB y.1 x.1 then false
  else strLeB x.2 y.2

/-- The ordering relation used to model Python `sorted` on `(path, kind)`
tuples. -/
def pairRel (x y : List Char × List Char) : Prop := pairLeB x y = true

instance : DecidableRel pairRel := fun x y =>
  inferInstanceAs (Decidable (pairLeB x y = true))

/-- Python `sorted` on a list of `(path, kind)` tuples. -/
def sortPairs (l : List (List Char × List Char)) : List (List Char × List Char) :=
  List.insertionSort pairRel l

/-! ### Filesystem model and file discovery

`os.walk` is modelled over an explicit directory tree.  A missing (or
unreadable) root is modelled by `Option.none`: `os.walk` is called with its
default `onerror=None`, which silently swallows the `OSError` raised by
`scandir`, so walking a missing directory yields no triples at all and the
discovery functions return an empty (sorted) list.  `os.walk` visits a
directory's files first and then recurses into each subdirectory (top-down);
the visiting order of siblings is filesystem-dependent, which is irrelevant
because the script sorts the collected paths. -/

mutual
/-- A directory: its plain files (by name) and its subdirectories. -/
inductive FSTree where
  | node : List (List Char) → FSDirList → FSTree
inductive FSDirList where
  | nil : FSDirList
  | cons : List Char → FSTree → FSDirList → FSDirList
end

/-- The path of an entry named `n` relative to the walk root: `os.path.relpath
(os.path.join(root, n), directory)`.  `none` is the root itself. -/
def joinRel : Option (List Char) → List Char → List Char
  | none, n => n
  | some r, n => r ++ ("/").toList ++ n

/-- `os.path.relpath(root, directory)` for the currently visited directory:
`"."` at the root itself. -/
def relAsPath : Option (List Char) → List Char
  | none => (".").toList
  | some r => r

/-- Whether the absolute path of the visited directory ends in `.lproj`
(`root.endswith('.lproj')` in the source).  For a non-root directory the
absolute path is `top ++ "/" ++ rel`; because `".lproj"` contains no slash,
that path ends in `".lproj"` iff `rel` does. -/
def pathEndsLproj (top : List Char) : Option (List Char) → Bool
  | none => (".lproj").toList.isSuffixOf top
  | some r => (".lproj").toList.isSuffixOf r

mutual
/-- The unsorted relative paths collected by `find_all_swift_files`:
every file whose name ends in `.swift`, in `os.walk` order. -/
def walkSwift (rel : Option (List Char)) : FSTree → List (List Char)
  | .node fs ds =>
    fs.filterMap (fun f =>
      if (".swift").toList.isSuffixOf f then some (joinRel rel f) else none)
    ++ walkSwiftDirs rel ds
/-- `walkSwift` over a list of subdirectories. -/
def walkSwiftDirs (rel : Option (List Char)) : FSDirList → List (List Char)
  | .nil => []
  | .cons n t rest => walkSwift (some (joinRel rel n)) t ++ walkSwiftDirs rel rest
end

/-- `find_all_swift_files(directory)`: recursively collects all `.swift`
files as paths relative to the root, sorted; `none` models a missing or
unreadable root directory, for which `os.walk` silently yields nothing. -/
def find_all_swift_files : Option FSTree → List (List Char)
  | none => []
  | some t => sortStrs (walkSwift none t)

/-- The resource-suffix allow-list of `find_all_resource_files`. -/
def resourceExtensions : List (List Char) :=
  [(".lproj").toList, (".strings").toList, (".js").toList,
   (".py").toList, (".json").toList, (".icns").toList]

/-- `any(file.endswith(ext) for ext in extensions)`. -/
def matchesResourceExt (f : List Char) : Bool :=
  resourceExtensions.any (fun e => e.isSuffixOf f)

mutual
/-- The unsorted `(rel_path, kind)` pairs collected by
`find_all_resource_files` in `os.walk` order: a visited directory whose path
ends in `.lproj` contributes `(rel_path, "folder")` and its own files are
skipped (the loop body does `continue`), but `os.walk` still descends into
its subdirectories because the `dirs` list is never pruned; in any other
visited directory every file matching the allow-list contributes
`(rel_path, "file")`. -/
def walkRes (top : List Char) (rel : Option (List Char)) : FSTree → List (List Char × List Char)
  | .node fs ds =>
    (if pathEndsLproj top rel then [(relAsPath rel, ("folder").toList)]
     else fs.filterMap (fun f =>
       if matchesResourceExt f then some (joinRel rel f, ("file").toList) else none))
    ++ walkResDirs top rel ds
/-- `walkRes` over a list of subdirectories. -/
def walkResDirs (top : List Char) (rel : Option (List Char)) : FSDirList → List (List Char × List Char)
  | .nil => []
  | .cons n t rest => walkRes top (some (joinRel rel n)) t ++ walkResDirs top rel rest
end

/-- `find_all_resource_files(directory)`: the collected `(rel_path, kind)`
pairs, sorted as Python sorts tuples of strings; `none` models a missing or
unreadable root. -/
def find_all_resource_files (top : List Char) : Option FSTree → List (List Char × List Char)
  | none => []
  | some t => sortPairs (walkRes top none t)

/-! ### Record synthesis

The script first synthesizes records for one distinguished extra file
(`sources/AIPluginWindowManager.swift`) and then one `PBXFileReference` plus
one `PBXBuildFile` record per discovered Swift file, consuming two fresh
identifiers per file in source order (`file_uuid` first, then `build_uuid`);
the window manager consumes the first two identifiers of the run. -/

/-- A synthesized `PBXFileReference` record for a discovered Swift file. -/
structure FileRefRec where
  uuid : List Char
  fileName : List Char
  relPath : List Char
deriving DecidableEq, Repr

/-- A synthesized `PBXBuildFile` record: `fileRef` is the back-reference to
the owning `PBXFileReference`'s identifier. -/
structure BuildRefRec where
  uuid : List Char
  fileRef : List Char
  fileName : List Char
deriving DecidableEq, Repr

/-- The `for swift_file in swift_files` loop of `add_files_to_project`:
for each file, `file_uuid = u k` and `build_uuid = u (k+1)` are drawn in
order, and the build record back-references the file record drawn in the
same iteration. -/
def synthLoop (files : List (List Char)) (u : Nat → List Char) (k : Nat) :
    List FileRefRec × List BuildRefRec :=
  match files with
  | [] => ([], [])
  | f :: fs =>
    let rest := synthLoop fs u (k + 2)
    (⟨u k, basename f, f⟩ :: rest.1, ⟨u (k + 1), u k, basename f⟩ :: rest.2)

/-- The identifiers of every `PBXFileReference` synthesized in one run:
the window manager's (`u 0`) followed by one per discovered file. -/
def all_file_ref_ids (files : List (List Char)) (u : Nat → List Char) : List (List Char) :=
  u 0 :: (synthLoop files u 2).1.map (fun r => r.uuid)

/-- Every `PBXBuildFile` record synthesized in one run: the window manager's
(`u 1`, back-referencing `u 0`) followed by one per discovered file. -/
def all_build_recs (files : List (List Char)) (u : Nat → List Char) : List BuildRefRec :=
  ⟨u 1, u 0, ("AIPluginWindowManager.swift").toList⟩ :: (synthLoop files u 2).2

/-- The rendered `PBXFileReference` line for a discovered Swift file
(f-string at line 100 of the source). -/
def renderFileRef (r : FileRefRec) : List Char :=
  ("\t\t").toList ++ r.uuid ++ (" /* ").toList ++ r.fileName
  ++ (" */ = \x7bisa = PBXFileReference; lastKnownFileType = sourcecode.swift; name = ").toList
  ++ r.fileName ++ ("; path = sources/AIPlugins/").toList ++ r.relPath
  ++ ("; sourceTree = \"<group>\"; \x7d;").toList

/-- The rendered `PBXFileReference` line for the distinguished window-manager
file (f-string at line 85 of the source; its `path` is not under
`sources/AIPlugins/`). -/
def renderWmFileRef (uuid : List Char) : List Char :=
  ("\t\t").toList ++ uuid
  ++ (" /* AIPluginWindowManager.swift */ = \x7bisa = PBXFileReference; lastKnownFileType = sourcecode.swift; name = AIPluginWindowManager.swift; path = sources/AIPluginWindowManager.swift; sourceTree = \"<group>\"; \x7d;").toList

/-- The rendered `PBXBuildFile` line (f-strings at lines 88 and 103 of the
source, which share one format). -/
def renderBuildRef (b : BuildRefRec) : List Char :=
  ("\t\t").toList ++ b.uuid ++ (" /* ").toList ++ b.fileName
  ++ (" in Sources */ = \x7bisa = PBXBuildFile; fileRef = ").toList ++ b.fileRef
  ++ (" /* ").toList ++ b.fileName ++ (" */; \x7d;").toList

/-! ### Section patching

Each of the four regions is located with `re.search` over patterns whose
pieces are string literals separated by non-greedy `(.*?)` groups (with
`re.DOTALL`).  For such patterns the backtracking search reduces to a
cascade of first-occurrence searches: the match starts at the first
occurrence of the leading literal, and each following literal is found at
its first occurrence after the preceding piece.  (If one of the cascaded
searches fails, every later starting position fails as well, because a
later start only shrinks the search space of the following literals — so no
backtracking is needed for literal-separated patterns.)  The matched text is
then replaced with `str.replace`, which rewrites EVERY occurrence of the
matched substring, not only the match site. -/

/-- Match of `(begin.*?)(\n end)` with `re.DOTALL` (the PBXFileReference /
PBXBuildFile section patterns): returns the span `[i, j)` of group 1, where
`i` is the first occurrence of `beginM` and `j` the first occurrence of
`'\n' ++ endM` after it. -/
def matchBeginEnd (beginM endM content : List Char) : Option (Nat × Nat) :=
  match findFrom content beginM 0 with
  | none => none
  | some i => (findFrom content ('\n' :: endM) (i + beginM.length)).map (fun j => (i, j))

/-- The literal `");"` closing both bracketed lists in the group/phase
patterns. -/
def listCloseMark : List Char := (");").toList

/-- Match of `(header.*?open)(.*?)(\);)` with `re.DOTALL` (the Sources group
and Sources build-phase patterns): returns the span of group 2 — the text
strictly between the first `open` after the first `header`, and the first
`");"` after that. -/
def matchKeyList (header openM content : List Char) : Option (Nat × Nat) :=
  match findFrom content header 0 with
  | none => none
  | some i =>
    match findFrom content openM (i + header.length) with
    | none => none
    | some j =>
      (findFrom content listCloseMark (j + openM.length)).map
        (fun k => (j + openM.length, k))

/-- Anchor of the PBXFileReference section. -/
def beginFileRefMark : List Char := ("/* Begin PBXFileReference section */").toList
/-- End marker of the PBXFileReference section. -/
def endFileRefMark : List Char := ("/* End PBXFileReference section */").toList
/-- Anchor of the PBXBuildFile section. -/
def beginBuildMark : List Char := ("/* Begin PBXBuildFile section */").toList
/-- End marker of the PBXBuildFile section. -/
def endBuildMark : List Char := ("/* End PBXBuildFile section */").toList
/-- Anchor of the well-known Sources group record. -/
def sourcesGroupHeader : List Char :=
  ("080E96DDFE201D6D7F000001 /* Sources */ = \x7b").toList
/-- Opening literal of the group's children list. -/
def childrenOpenMark : List Char := ("children = (").toList
/-- Anchor of the well-known Sources build-phase record. -/
def sourcesPhaseHeader : List Char :=
  ("8D11072C0486CEB800E47090 /* Sources */ = \x7b").toList
/-- Opening literal of the build phase's files list. -/
def filesOpenMark : List Char := ("files = (").toList
/-- The literal `' in Sources '` used by the phase-patching loop. -/
def inSourcesMark : List Char := (" in Sources ").toList

/-- Success message printed after patching the PBXFileReference section. -/
def msgAddFileRefs : String := "   ✓ 添加文件引用"
/-- Success message printed after patching the PBXBuildFile section. -/
def msgAddBuildRefs : String := "   ✓ 添加编译引用"
/-- Success message printed after patching the Sources group. -/
def msgAddGroup : String := "   ✓ 添加到 Sources 组"
/-- Success message printed after patching the Sources build phase. -/
def msgAddPhase : String := "   ✓ 添加到编译阶段"

/-- One begin/end section patch (lines 110–123 of the source, which contain
two copies of this logic for the two sections).  If the pattern does not
match, the block is skipped: the content is returned unchanged and nothing —
in particular no warning — is printed.  On a match, group 1 is extended with
a newline, the new record lines joined by newlines, and a final newline, and
every occurrence of the group-1 text in the document is replaced
(`content.replace(old, new)`). -/
def patchSection (beginM endM : List Char) (lines : List (List Char)) (okMsg : String)
    (content : List Char) : List Char × List String :=
  match matchBeginEnd beginM endM content with
  | none => (content, [])
  | some (i, j) =>
    let g1 := seg content i j
    let newContent := g1 ++ '\n' :: (List.intercalate (['\n']) lines ++ ['\n'])
    (pyReplace content g1 newContent, [okMsg])

/-- The Sources-group patch (lines 126–133): only the window manager's
reference is appended to the children list (the per-file references are NOT
added to the group), then every occurrence of the old children text is
replaced. -/
def patchSourcesGroup (wmUuid : List Char) (content : List Char) : List Char × List String :=
  match matchKeyList sourcesGroupHeader childrenOpenMark content with
  | none => (content, [])
  | some (a, b) =>
    let children := seg content a b
    let newChild := ("\n\t\t\t\t").toList ++ wmUuid
      ++ (" /* AIPluginWindowManager.swift */,").toList
    (pyReplace content children (children ++ newChild), [msgAddGroup])

/-- The inner lookup of the phase patch (lines 143–149): the first rendered
`PBXBuildFile` line that contains the file's base name and `' in Sources '`
is selected, and the first run of 24 `[A-F0-9]` characters in that line is
taken as the identifier; if the regex finds no such run nothing is appended
(the loop `break`s either way). -/
def phase_entry (buildRefLines : List (List Char)) (fileName : List Char) : List (List Char) :=
  match buildRefLines.find? (fun ref => occursIn fileName ref && occursIn inSourcesMark ref) with
  | none => []
  | some ref =>
    match findHex24 ref with
    | none => []
    | some uu =>
      [("\n\t\t\t\t").toList ++ uu ++ (" /* ").toList ++ fileName
        ++ (" in Sources */,").toList]

/-- The Sources-build-phase patch (lines 136–153): the window manager's
build identifier plus, for each discovered file, the identifier recovered by
`phase_entry`, all appended to the files list; then every occurrence of the
old files text is replaced. -/
def patchSourcesPhase (wmBuildUuid : List Char) (swiftFiles buildRefLines : List (List Char))
    (content : List Char) : List Char × List String :=
  match matchKeyList sourcesPhaseHeader filesOpenMark content with
  | none => (content, [])
  | some (a, b) =>
    let files := seg content a b
    let entries := (("\n\t\t\t\t").toList ++ wmBuildUuid
        ++ (" /* AIPluginWindowManager.swift in Sources */,").toList)
      :: swiftFiles.flatMap (fun f => phase_entry buildRefLines (basename f))
    (pyReplace content files (files ++ entries.flatten), [msgAddPhase])

/-! ### Orchestration -/

/-- The hard-coded resource directory passed to `find_all_resource_files`. -/
def resources_dir : List Char :=
  ("/Users/xcl/rime/squirrel_llm/Resources/AIPlugins").toList

/-- Result of one completed run: the content passed to `write_pbxproj`, the
messages printed by the four patch blocks, and the two counts reported in
the final summary. -/
structure RunOut where
  written : List Char
  patchMsgs : List String
  sourcesAdded : Nat
  resourcesFound : Nat
deriving DecidableEq, Repr

/-- The body of `add_files_to_project` after the descriptor has been read:
discover sources and resources, synthesize the window-manager records and
the per-file records, patch the four regions in source order
(PBXFileReference section, PBXBuildFile section, Sources group children,
Sources phase files), and stage the final text for the single write.  The
discovered resources are only counted for the summary. -/
def run_patch (content : List Char) (srcFS resFS : Option FSTree) (u : Nat → List Char) :
    RunOut :=
  let swiftFiles := find_all_swift_files srcFS
  let resourceFiles := find_all_resource_files resources_dir resFS
  let fileRefLines := renderWmFileRef (u 0) :: (synthLoop swiftFiles u 2).1.map renderFileRef
  let buildRefLines := (all_build_recs swiftFiles u).map renderBuildRef
  let s1 := patchSection beginFileRefMark endFileRefMark fileRefLines msgAddFileRefs content
  let s2 := patchSection beginBuildMark endBuildMark buildRefLines msgAddBuildRefs s1.1
  let s3 := patchSourcesGroup (u 0) s2.1
  let s4 := patchSourcesPhase (u 1) swiftFiles buildRefLines s3.1
  ⟨s4.1, s1.2 ++ s2.2 ++ s3.2 ++ s4.2, swiftFiles.length + 1, resourceFiles.length⟩

/-- `read_pbxproj`: opening a missing (or unreadable) descriptor raises,
modelled as an `Except` error. -/
def read_pbxproj (file : Option (List Char)) : Except String (List Char) :=
  match file with
  | none => Except.error ("FileNotFoundError")
  | some c => Except.ok c

/-- `add_files_to_project()`: read the descriptor, then run the patching
pipeline; any exception propagates to the caller. -/
def add_files_to_project (descriptorFile : Option (List Char)) (srcFS resFS : Option FSTree)
    (u : Nat → List Char) : Except String RunOut :=
  match read_pbxproj descriptorFile with
  | Except.error e => Except.error e
  | Except.ok content => Except.ok (run_patch content srcFS resFS u)

/-- Exit status of the `if __name__ == '__main__'` block: the `except`
handler prints the error and `traceback.print_exc()` but never calls
`sys.exit`, so the interpreter exits with status 0 whether or not an
exception escaped `add_files_to_project`. -/
def main_exit_code : Except String RunOut → Nat
  | Except.ok _ => 0
  | Except.error _ => 0

/-- Whether the `__main__` block prints a diagnostic traceback: exactly when
`add_files_to_project` raised. -/
def main_prints_trace : Except String RunOut → Bool
  | Except.ok _ => false
  | Except.error _ => true

/-! ### Observation helpers (not part of the source; used only to state
properties about produced documents) -/

/-- Whether a run completed without an exception. -/
def runOk : Except String RunOut → Bool
  | Except.ok _ => true
  | Except.error _ => false

/-- The content a completed run passed to `write_pbxproj`; `none` when the
run raised before writing. -/
def writtenOf : Except String RunOut → Option (List Char)
  | Except.ok o => some o.written
  | Except.error _ => none

/-- The content a completed run wrote, defaulting to `[]` on an exception. -/
def writtenOr : Except String RunOut → List Char
  | Except.ok o => o.written
  | Except.error _ => []

/-- The text strictly between a begin/end marker pair of a document. -/
def regionText (beginM endM content : List Char) : List Char :=
  match matchBeginEnd beginM endM content with
  | none => []
  | some (i, j) => seg content (i + beginM.length) j

/-- The text of a bracketed list region of a document. -/
def listRegion (header openM content : List Char) : List Char :=
  match matchKeyList header openM content with
  | none => []
  | some (a, b) => seg content a b

/-- The PBXFileReference (declaration) section of a document. -/
def declRegion (c : List Char) : List Char := regionText beginFileRefMark endFileRefMark c
/-- The PBXBuildFile (registration) section of a document. -/
def buildRegion (c : List Char) : List Char := regionText beginBuildMark endBuildMark c
/-- The children list of the Sources group of a document. -/
def groupChildrenRegion (c : List Char) : List Char :=
  listRegion sourcesGroupHeader childrenOpenMark c
/-- The files list of the Sources build phase of a document. -/
def phaseFilesRegion (c : List Char) : List Char :=
  listRegion sourcesPhaseHeader filesOpenMark c

/-- The record marker counted to recognise `PBXFileReference` entries. -/
def fileRefIsaMark : List Char := ("isa = PBXFileReference;").toList
/-- The record marker counted to recognise `PBXBuildFile` entries. -/
def buildFileIsaMark : List Char := ("isa = PBXBuildFile;").toList
/-- The trailing marker of one back-reference entry in a bracketed list. -/
def entryCommaMark : List Char := ("*/,").toList

/-! ### Concrete scenario inputs

`d1` is a minimal descriptor containing well-formed empty instances of all
four target regions: both begin/end sections are empty, the Sources group
has an empty (whitespace-only) children list and the Sources build phase an
empty (whitespace-only) files list.  The two whitespace fillers are chosen
so that each region's matched text occurs exactly once in the document at
the moment it is replaced, keeping the run traceable. -/

/-- A descriptor with well-formed empty instances of the four target
regions. -/
def d1 : List Char :=
  ("// !$*UTF8*$!\n\x7b\n\t\t080E96DDFE201D6D7F000001 /* Sources */ = \x7b\n\t\t\tisa = PBXGroup;\n\t\t\tchildren = ( \t);\n\t\t\tname = Sources;\n\t\t\x7d;\n\t\t8D11072C0486CEB800E47090 /* Sources */ = \x7b\n\t\t\tisa = PBXSourcesBuildPhase;\n\t\t\tfiles = (\t );\n\t\t\x7d;\n/* Begin PBXBuildFile section */\n/* End PBXBuildFile section */\n/* Begin PBXFileReference section */\n/* End PBXFileReference section */\n\x7d\n").toList

/-- A source directory containing exactly the two files `A.swift` and
`B.swift` (listed out of order; discovery sorts them). -/
def srcT1 : FSTree :=
  FSTree.node [("B.swift").toList, ("A.swift").toList] FSDirList.nil

/-- Identifier stream of the first run (6 distinct 24-hex tokens drawn). -/
def u1 : Nat → List Char
  | 0 => ("AAAAAAAAAAAAAAAAAAAAAA00").toList
  | 1 => ("AAAAAAAAAAAAAAAAAAAAAA01").toList
  | 2 => ("AAAAAAAAAAAAAAAAAAAAAA02").toList
  | 3 => ("AAAAAAAAAAAAAAAAAAAAAA03").toList
  | 4 => ("AAAAAAAAAAAAAAAAAAAAAA04").toList
  | _ => ("AAAAAAAAAAAAAAAAAAAAAA05").toList

/-- Identifier stream of the second (re-)run: disjoint from `u1`, as fresh
random identifiers are drawn on every run. -/
def u2 : Nat → List Char
  | 0 => ("BBBBBBBBBBBBBBBBBBBBBB00").toList
  | 1 => ("BBBBBBBBBBBBBBBBBBBBBB01").toList
  | 2 => ("BBBBBBBBBBBBBBBBBBBBBB02").toList
  | 3 => ("BBBBBBBBBBBBBBBBBBBBBB03").toList
  | 4 => ("BBBBBBBBBBBBBBBBBBBBBB04").toList
  | _ => ("BBBBBBBBBBBBBBBBBBBBBB05").toList

/-- Identifier stream for the missing-source-root run. -/
def u3 : Nat → List Char
  | 0 => ("CCCCCCCCCCCCCCCCCCCCCC00").toList
  | _ => ("CCCCCCCCCCCCCCCCCCCCCC01").toList

/-- Identifier stream for the duplicate-base-name run. -/
def u7 : Nat → List Char
  | 0 => ("EEEEEEEEEEEEEEEEEEEEEE00").toList
  | 1 => ("EEEEEEEEEEEEEEEEEEEEEE01").toList
  | 2 => ("EEEEEEEEEEEEEEEEEEEEEE02").toList
  | 3 => ("EEEEEEEEEEEEEEEEEEEEEE03").toList
  | 4 => ("EEEEEEEEEEEEEEEEEEEEEE04").toList
  | _ => ("EEEEEEEEEEEEEEEEEEEEEE05").toList

/-- The end-to-end run on `d1` with sources `A.swift`, `B.swift`. -/
def r1 : RunOut := run_patch d1 (some srcT1) none u1

/-- The second run of the end-to-end scenario, applied to the descriptor
text the first run wrote, drawing fresh identifiers. -/
def r2run : RunOut := run_patch r1.written (some srcT1) none u2

/-- A run whose source root is missing (`none`); the resource root is
missing as well. -/
def r3res : Except String RunOut := add_files_to_project (some d1) none none u3

/-- The completed `RunOut` of the missing-source-root run (the run raises no
exception, so `r3res = Except.ok r3run`). -/
def r3run : RunOut := run_patch d1 none none u3

/-- The patch messages of a completed run (`[]` on an exception). -/
def msgsOf : Except String RunOut → List String
  | Except.ok o => o.patchMsgs
  | Except.error _ => []

/-- A source directory with two distinct files that share the base name
`Foo.swift`. -/
def srcT7 : FSTree :=
  FSTree.node []
    (FSDirList.cons (("a").toList) (FSTree.node [("Foo.swift").toList] FSDirList.nil)
      (FSDirList.cons (("b").toList) (FSTree.node [("Foo.swift").toList] FSDirList.nil)
        FSDirList.nil))

/-- The run on the duplicate-base-name tree. -/
def r7 : RunOut := run_patch d1 (some srcT7) none u7

/-- A resource tree with an `en.lproj` bundle directory that directly
contains `Localizable.strings` and also has a plain subdirectory `sub`
containing `x.js`. -/
def resT5 : FSTree :=
  FSTree.node []
    (FSDirList.cons (("en.lproj").toList)
      (FSTree.node [("Localizable.strings").toList]
        (FSDirList.cons (("sub").toList) (FSTree.node [("x.js").toList] FSDirList.nil)
          FSDirList.nil))
      FSDirList.nil)

/-- A document whose Sources-group children text `QQQ` occurs a second
time, verbatim, later in the document. -/
def d6 : List Char :=
  ("A\n\t\t080E96DDFE201D6D7F000001 /* Sources */ = \x7b\n\t\t\tchildren = (QQQ);\n\t\t\x7d;\nnote QQQ end\n").toList

/-- The window-manager identifier used in the duplicated-content patch. -/
def uD : List Char := ("DDDDDDDDDDDDDDDDDDDDDD00").toList

/-! ### Expected outputs, as literal text

The following literals are the documents the modelled runs produce; the
equalities are proved chunkwise (`take`/`drop`) to keep every single kernel
evaluation within stack bounds.  Each literal was produced by evaluating the
model and is re-verified against the model by the chunk lemmas below. -/

/-- Chunk 0 of `litR1`. -/
def litR1ch0 : List Char := ("// !$*UTF8*$!\n\x7b\n\t\t080E96DDFE201D6D7F000001 /* Sources */ = \x7b\n\t\t\tisa = PBXGroup;\n\t\t\tchildren = ( \t\n\t\t\t\tAAAAAAAAAAAAAAAAAAAAAA00 /* AIPluginWindowManager.swift */,);\n\t\t\tname = Sources;\n\t\t\x7d;\n\t\t8D11072C0486CEB800E47090 /* Sources */ = \x7b\n\t\t\tisa = PBXSourcesBuildPhase;\n\t\t\tfiles = (\t \n\t\t\t\tAAAAAAAAAAAAAAAAAAAAAA01 /* AIPluginWindowManager.swift in Sources */,\n\t\t\t\tAAAAAAAAAAAAAAAAAAAAAA03 /* A.swift in Sources */,\n\t\t\t\tAAAAAAAAAAAAAAAAAAAAAA05 /* B.swift in Sources */,);\n\t\t\x7d;\n/* Begin PBXBuildFile section").toList

/-- Chunk 1 of `litR1`. -/
def litR1ch1 : List Char := (" */\n\t\tAAAAAAAAAAAAAAAAAAAAAA01 /* AIPluginWindowManager.swift in Sources */ = \x7bisa = PBXBuildFile; fileRef = AAAAAAAAAAAAAAAAAAAAAA00 /* AIPluginWindowManager.swift */; \x7d;\n\t\tAAAAAAAAAAAAAAAAAAAAAA03 /* A.swift in Sources */ = \x7bisa = PBXBuildFile; fileRef = AAAAAAAAAAAAAAAAAAAAAA02 /* A.swift */; \x7d;\n\t\tAAAAAAAAAAAAAAAAAAAAAA05 /* B.swift in Sources */ = \x7bisa = PBXBuildFile; fileRef = AAAAAAAAAAAAAAAAAAAAAA04 /* B.swift */; \x7d;\n\n/* End PBXBuildFile section */\n/* Begin PBXFileReference section */\n\t\tA").toList

/-- Chunk 2 of `litR1`. -/
def litR1ch2 : List Char := ("AAAAAAAAAAAAAAAAAAAAA00 /* AIPluginWindowManager.swift */ = \x7bisa = PBXFileReference; lastKnownFileType = sourcecode.swift; name = AIPluginWindowManager.swift; path = sources/AIPluginWindowManager.swift; sourceTree = \"<group>\"; \x7d;\n\t\tAAAAAAAAAAAAAAAAAAAAAA02 /* A.swift */ = \x7bisa = PBXFileReference; lastKnownFileType = sourcecode.swift; name = A.swift; path = sources/AIPlugins/A.swift; sourceTree = \"<group>\"; \x7d;\n\t\tAAAAAAAAAAAAAAAAAAAAAA04 /* B.swift */ = \x7bisa = PBXFileReference; lastKnownFileType =").toList

/-- Chunk 3 of `litR1`. -/
def litR1ch3 : List Char := (" sourcecode.swift; name = B.swift; path = sources/AIPlugins/B.swift; sourceTree = \"<group>\"; \x7d;\n\n/* End PBXFileReference section */\n\x7d\n").toList

/-- The descriptor text written by the end-to-end run `r1` (length 1634), assembled from its chunks. -/
def litR1 : List Char := litR1ch0 ++ (litR1ch1 ++ (litR1ch2 ++ (litR1ch3)))

/-- The rendered PBXFileReference lines of the second run (fresh identifiers). -/
def litFR2lines : List (List Char) :=
  [("\t\tBBBBBBBBBBBBBBBBBBBBBB00 /* AIPluginWindowManager.swift */ = \x7bisa = PBXFileReference; lastKnownFileType = sourcecode.swift; name = AIPluginWindowManager.swift; path = sources/AIPluginWindowManager.swift; sourceTree = \"<group>\"; \x7d;").toList,
   ("\t\tBBBBBBBBBBBBBBBBBBBBBB02 /* A.swift */ = \x7bisa = PBXFileReference; lastKnownFileType = sourcecode.swift; name = A.swift; path = sources/AIPlugins/A.swift; sourceTree = \"<group>\"; \x7d;").toList,
   ("\t\tBBBBBBBBBBBBBBBBBBBBBB04 /* B.swift */ = \x7bisa = PBXFileReference; lastKnownFileType = sourcecode.swift; name = B.swift; path = sources/AIPlugins/B.swift; sourceTree = \"<group>\"; \x7d;").toList]

/-- The rendered PBXBuildFile lines of the second run. -/
def litBF2lines : List (List Char) :=
  [("\t\tBBBBBBBBBBBBBBBBBBBBBB01 /* AIPluginWindowManager.swift in Sources */ = \x7bisa = PBXBuildFile; fileRef = BBBBBBBBBBBBBBBBBBBBBB00 /* AIPluginWindowManager.swift */; \x7d;").toList,
   ("\t\tBBBBBBBBBBBBBBBBBBBBBB03 /* A.swift in Sources */ = \x7bisa = PBXBuildFile; fileRef = BBBBBBBBBBBBBBBBBBBBBB02 /* A.swift */; \x7d;").toList,
   ("\t\tBBBBBBBBBBBBBBBBBBBBBB05 /* B.swift in Sources */ = \x7bisa = PBXBuildFile; fileRef = BBBBBBBBBBBBBBBBBBBBBB04 /* B.swift */; \x7d;").toList]

/-- Chunk 0 of `litR2s1`. -/
def litR2s1ch0 : List Char := ("// !$*UTF8*$!\n\x7b\n\t\t080E96DDFE201D6D7F000001 /* Sources */ = \x7b\n\t\t\tisa = PBXGroup;\n\t\t\tchildren = ( \t\n\t\t\t\tAAAAAAAAAAAAAAAAAAAAAA00 /* AIPluginWindowManager.swift */,);\n\t\t\tname = Sources;\n\t\t\x7d;\n\t\t8D11072C0486CEB800E47090 /* Sources */ = \x7b\n\t\t\tisa = PBXSourcesBuildPhase;\n\t\t\tfiles = (\t \n\t\t\t\tAAAAAAAAAAAAAAAAAAAAAA01 /* AIPluginWindowManager.swift in Sources */,\n\t\t\t\tAAAAAAAAAAAAAAAAAAAAAA03 /* A.swift in Sources */,\n\t\t\t\tAAAAAAAAAAAAAAAAAAAAAA05 /* B.swift in Sources */,);\n\t\t\x7d;\n/* Begin PBXBuildFile section").toList

/-- Chunk 1 of `litR2s1`. -/
def litR2s1ch1 : List Char := (" */\n\t\tAAAAAAAAAAAAAAAAAAAAAA01 /* AIPluginWindowManager.swift in Sources */ = \x7bisa = PBXBuildFile; fileRef = AAAAAAAAAAAAAAAAAAAAAA00 /* AIPluginWindowManager.swift */; \x7d;\n\t\tAAAAAAAAAAAAAAAAAAAAAA03 /* A.swift in Sources */ = \x7bisa = PBXBuildFile; fileRef = AAAAAAAAAAAAAAAAAAAAAA02 /* A.swift */; \x7d;\n\t\tAAAAAAAAAAAAAAAAAAAAAA05 /* B.swift in Sources */ = \x7bisa = PBXBuildFile; fileRef = AAAAAAAAAAAAAAAAAAAAAA04 /* B.swift */; \x7d;\n\n/* End PBXBuildFile section */\n/* Begin PBXFileReference section */\n\t\tA").toList

/-- Chunk 2 of `litR2s1`. -/
def litR2s1ch2 : List Char := ("AAAAAAAAAAAAAAAAAAAAA00 /* AIPluginWindowManager.swift */ = \x7bisa = PBXFileReference; lastKnownFileType = sourcecode.swift; name = AIPluginWindowManager.swift; path = sources/AIPluginWindowManager.swift; sourceTree = \"<group>\"; \x7d;\n\t\tAAAAAAAAAAAAAAAAAAAAAA02 /* A.swift */ = \x7bisa = PBXFileReference; lastKnownFileType = sourcecode.swift; name = A.swift; path = sources/AIPlugins/A.swift; sourceTree = \"<group>\"; \x7d;\n\t\tAAAAAAAAAAAAAAAAAAAAAA04 /* B.swift */ = \x7bisa = PBXFileReference; lastKnownFileType =").toList

/-- Chunk 3 of `litR2s1`. -/
def litR2s1ch3 : List Char := (" sourcecode.swift; name = B.swift; path = sources/AIPlugins/B.swift; sourceTree = \"<group>\"; \x7d;\n\n\t\tBBBBBBBBBBBBBBBBBBBBBB00 /* AIPluginWindowManager.swift */ = \x7bisa = PBXFileReference; lastKnownFileType = sourcecode.swift; name = AIPluginWindowManager.swift; path = sources/AIPluginWindowManager.swift; sourceTree = \"<group>\"; \x7d;\n\t\tBBBBBBBBBBBBBBBBBBBBBB02 /* A.swift */ = \x7bisa = PBXFileReference; lastKnownFileType = sourcecode.swift; name = A.swift; path = sources/AIPlugins/A.swift; sourceTree = \"").toList

/-- Chunk 4 of `litR2s1`. -/
def litR2s1ch4 : List Char := ("<group>\"; \x7d;\n\t\tBBBBBBBBBBBBBBBBBBBBBB04 /* B.swift */ = \x7bisa = PBXFileReference; lastKnownFileType = sourcecode.swift; name = B.swift; path = sources/AIPlugins/B.swift; sourceTree = \"<group>\"; \x7d;\n\n/* End PBXFileReference section */\n\x7d\n").toList

/-- The second run's document after its PBXFileReference-section patch (length 2234), assembled from its chunks. -/
def litR2s1 : List Char := litR2s1ch0 ++ (litR2s1ch1 ++ (litR2s1ch2 ++ (litR2s1ch3 ++ (litR2s1ch4))))

/-- Chunk 0 of `litR2s2`. -/
def litR2s2ch0 : List Char := ("// !$*UTF8*$!\n\x7b\n\t\t080E96DDFE201D6D7F000001 /* Sources */ = \x7b\n\t\t\tisa = PBXGroup;\n\t\t\tchildren = ( \t\n\t\t\t\tAAAAAAAAAAAAAAAAAAAAAA00 /* AIPluginWindowManager.swift */,);\n\t\t\tname = Sources;\n\t\t\x7d;\n\t\t8D11072C0486CEB800E47090 /* Sources */ = \x7b\n\t\t\tisa = PBXSourcesBuildPhase;\n\t\t\tfiles = (\t \n\t\t\t\tAAAAAAAAAAAAAAAAAAAAAA01 /* AIPluginWindowManager.swift in Sources */,\n\t\t\t\tAAAAAAAAAAAAAAAAAAAAAA03 /* A.swift in Sources */,\n\t\t\t\tAAAAAAAAAAAAAAAAAAAAAA05 /* B.swift in Sources */,);\n\t\t\x7d;\n/* Begin PBXBuildFile section").toList

/-- Chunk 1 of `litR2s2`. -/
def litR2s2ch1 : List Char := (" */\n\t\tAAAAAAAAAAAAAAAAAAAAAA01 /* AIPluginWindowManager.swift in Sources */ = \x7bisa = PBXBuildFile; fileRef = AAAAAAAAAAAAAAAAAAAAAA00 /* AIPluginWindowManager.swift */; \x7d;\n\t\tAAAAAAAAAAAAAAAAAAAAAA03 /* A.swift in Sources */ = \x7bisa = PBXBuildFile; fileRef = AAAAAAAAAAAAAAAAAAAAAA02 /* A.swift */; \x7d;\n\t\tAAAAAAAAAAAAAAAAAAAAAA05 /* B.swift in Sources */ = \x7bisa = PBXBuildFile; fileRef = AAAAAAAAAAAAAAAAAAAAAA04 /* B.swift */; \x7d;\n\n\t\tBBBBBBBBBBBBBBBBBBBBBB01 /* AIPluginWindowManager.swift in Sources */").toList

/-- Chunk 2 of `litR2s2`. -/
def litR2s2ch2 : List Char := (" = \x7bisa = PBXBuildFile; fileRef = BBBBBBBBBBBBBBBBBBBBBB00 /* AIPluginWindowManager.swift */; \x7d;\n\t\tBBBBBBBBBBBBBBBBBBBBBB03 /* A.swift in Sources */ = \x7bisa = PBXBuildFile; fileRef = BBBBBBBBBBBBBBBBBBBBBB02 /* A.swift */; \x7d;\n\t\tBBBBBBBBBBBBBBBBBBBBBB05 /* B.swift in Sources */ = \x7bisa = PBXBuildFile; fileRef = BBBBBBBBBBBBBBBBBBBBBB04 /* B.swift */; \x7d;\n\n/* End PBXBuildFile section */\n/* Begin PBXFileReference section */\n\t\tAAAAAAAAAAAAAAAAAAAAAA00 /* AIPluginWindowManager.swift */ = \x7bisa = PBXFileR").toList

/-- Chunk 3 of `litR2s2`. -/
def litR2s2ch3 : List Char := ("eference; lastKnownFileType = sourcecode.swift; name = AIPluginWindowManager.swift; path = sources/AIPluginWindowManager.swift; sourceTree = \"<group>\"; \x7d;\n\t\tAAAAAAAAAAAAAAAAAAAAAA02 /* A.swift */ = \x7bisa = PBXFileReference; lastKnownFileType = sourcecode.swift; name = A.swift; path = sources/AIPlugins/A.swift; sourceTree = \"<group>\"; \x7d;\n\t\tAAAAAAAAAAAAAAAAAAAAAA04 /* B.swift */ = \x7bisa = PBXFileReference; lastKnownFileType = sourcecode.swift; name = B.swift; path = sources/AIPlugins/B.swift; source").toList

/-- Chunk 4 of `litR2s2`. -/
def litR2s2ch4 : List Char := ("Tree = \"<group>\"; \x7d;\n\n\t\tBBBBBBBBBBBBBBBBBBBBBB00 /* AIPluginWindowManager.swift */ = \x7bisa = PBXFileReference; lastKnownFileType = sourcecode.swift; name = AIPluginWindowManager.swift; path = sources/AIPluginWindowManager.swift; sourceTree = \"<group>\"; \x7d;\n\t\tBBBBBBBBBBBBBBBBBBBBBB02 /* A.swift */ = \x7bisa = PBXFileReference; lastKnownFileType = sourcecode.swift; name = A.swift; path = sources/AIPlugins/A.swift; sourceTree = \"<group>\"; \x7d;\n\t\tBBBBBBBBBBBBBBBBBBBBBB04 /* B.swift */ = \x7bisa = PBXFileRefer").toList

/-- Chunk 5 of `litR2s2`. -/
def litR2s2ch5 : List Char := ("ence; lastKnownFileType = sourcecode.swift; name = B.swift; path = sources/AIPlugins/B.swift; sourceTree = \"<group>\"; \x7d;\n\n/* End PBXFileReference section */\n\x7d\n").toList

/-- The second run's document after its PBXBuildFile-section patch (length 2659), assembled from its chunks. -/
def litR2s2 : List Char := litR2s2ch0 ++ (litR2s2ch1 ++ (litR2s2ch2 ++ (litR2s2ch3 ++ (litR2s2ch4 ++ (litR2s2ch5)))))

/-- Chunk 0 of `litR2s3`. -/
def litR2s3ch0 : List Char := ("// !$*UTF8*$!\n\x7b\n\t\t080E96DDFE201D6D7F000001 /* Sources */ = \x7b\n\t\t\tisa = PBXGroup;\n\t\t\tchildren = ( \t\n\t\t\t\tAAAAAAAAAAAAAAAAAAAAAA00 /* AIPluginWindowManager.swift */,\n\t\t\t\tBBBBBBBBBBBBBBBBBBBBBB00 /* AIPluginWindowManager.swift */,);\n\t\t\tname = Sources;\n\t\t\x7d;\n\t\t8D11072C0486CEB800E47090 /* Sources */ = \x7b\n\t\t\tisa = PBXSourcesBuildPhase;\n\t\t\tfiles = (\t \n\t\t\t\tAAAAAAAAAAAAAAAAAAAAAA01 /* AIPluginWindowManager.swift in Sources */,\n\t\t\t\tAAAAAAAAAAAAAAAAAAAAAA03 /* A.swift in Sources */,\n\t\t\t\tAAAAAAAAAAAAAAAAAAAAAA0").toList

/-- Chunk 1 of `litR2s3`. -/
def litR2s3ch1 : List Char := ("5 /* B.swift in Sources */,);\n\t\t\x7d;\n/* Begin PBXBuildFile section */\n\t\tAAAAAAAAAAAAAAAAAAAAAA01 /* AIPluginWindowManager.swift in Sources */ = \x7bisa = PBXBuildFile; fileRef = AAAAAAAAAAAAAAAAAAAAAA00 /* AIPluginWindowManager.swift */; \x7d;\n\t\tAAAAAAAAAAAAAAAAAAAAAA03 /* A.swift in Sources */ = \x7bisa = PBXBuildFile; fileRef = AAAAAAAAAAAAAAAAAAAAAA02 /* A.swift */; \x7d;\n\t\tAAAAAAAAAAAAAAAAAAAAAA05 /* B.swift in Sources */ = \x7bisa = PBXBuildFile; fileRef = AAAAAAAAAAAAAAAAAAAAAA04 /* B.swift */; \x7d;\n\n\t\tBBBBB").toList

/-- Chunk 2 of `litR2s3`. -/
def litR2s3ch2 : List Char := ("BBBBBBBBBBBBBBBBB01 /* AIPluginWindowManager.swift in Sources */ = \x7bisa = PBXBuildFile; fileRef = BBBBBBBBBBBBBBBBBBBBBB00 /* AIPluginWindowManager.swift */; \x7d;\n\t\tBBBBBBBBBBBBBBBBBBBBBB03 /* A.swift in Sources */ = \x7bisa = PBXBuildFile; fileRef = BBBBBBBBBBBBBBBBBBBBBB02 /* A.swift */; \x7d;\n\t\tBBBBBBBBBBBBBBBBBBBBBB05 /* B.swift in Sources */ = \x7bisa = PBXBuildFile; fileRef = BBBBBBBBBBBBBBBBBBBBBB04 /* B.swift */; \x7d;\n\n/* End PBXBuildFile section */\n/* Begin PBXFileReference section */\n\t\tAAAAAAAAAAAA").toList

/-- Chunk 3 of `litR2s3`. -/
def litR2s3ch3 : List Char := ("AAAAAAAAAA00 /* AIPluginWindowManager.swift */ = \x7bisa = PBXFileReference; lastKnownFileType = sourcecode.swift; name = AIPluginWindowManager.swift; path = sources/AIPluginWindowManager.swift; sourceTree = \"<group>\"; \x7d;\n\t\tAAAAAAAAAAAAAAAAAAAAAA02 /* A.swift */ = \x7bisa = PBXFileReference; lastKnownFileType = sourcecode.swift; name = A.swift; path = sources/AIPlugins/A.swift; sourceTree = \"<group>\"; \x7d;\n\t\tAAAAAAAAAAAAAAAAAAAAAA04 /* B.swift */ = \x7bisa = PBXFileReference; lastKnownFileType = sourcecode").toList

/-- Chunk 4 of `litR2s3`. -/
def litR2s3ch4 : List Char := (".swift; name = B.swift; path = sources/AIPlugins/B.swift; sourceTree = \"<group>\"; \x7d;\n\n\t\tBBBBBBBBBBBBBBBBBBBBBB00 /* AIPluginWindowManager.swift */ = \x7bisa = PBXFileReference; lastKnownFileType = sourcecode.swift; name = AIPluginWindowManager.swift; path = sources/AIPluginWindowManager.swift; sourceTree = \"<group>\"; \x7d;\n\t\tBBBBBBBBBBBBBBBBBBBBBB02 /* A.swift */ = \x7bisa = PBXFileReference; lastKnownFileType = sourcecode.swift; name = A.swift; path = sources/AIPlugins/A.swift; sourceTree = \"<group>\"; \x7d").toList

/-- Chunk 5 of `litR2s3`. -/
def litR2s3ch5 : List Char := (";\n\t\tBBBBBBBBBBBBBBBBBBBBBB04 /* B.swift */ = \x7bisa = PBXFileReference; lastKnownFileType = sourcecode.swift; name = B.swift; path = sources/AIPlugins/B.swift; sourceTree = \"<group>\"; \x7d;\n\n/* End PBXFileReference section */\n\x7d\n").toList

/-- The second run's document after its Sources-group patch (length 2723), assembled from its chunks. -/
def litR2s3 : List Char := litR2s3ch0 ++ (litR2s3ch1 ++ (litR2s3ch2 ++ (litR2s3ch3 ++ (litR2s3ch4 ++ (litR2s3ch5)))))

/-- Chunk 0 of `litR2`. -/
def litR2ch0 : List Char := ("// !$*UTF8*$!\n\x7b\n\t\t080E96DDFE201D6D7F000001 /* Sources */ = \x7b\n\t\t\tisa = PBXGroup;\n\t\t\tchildren = ( \t\n\t\t\t\tAAAAAAAAAAAAAAAAAAAAAA00 /* AIPluginWindowManager.swift */,\n\t\t\t\tBBBBBBBBBBBBBBBBBBBBBB00 /* AIPluginWindowManager.swift */,);\n\t\t\tname = Sources;\n\t\t\x7d;\n\t\t8D11072C0486CEB800E47090 /* Sources */ = \x7b\n\t\t\tisa = PBXSourcesBuildPhase;\n\t\t\tfiles = (\t \n\t\t\t\tAAAAAAAAAAAAAAAAAAAAAA01 /* AIPluginWindowManager.swift in Sources */,\n\t\t\t\tAAAAAAAAAAAAAAAAAAAAAA03 /* A.swift in Sources */,\n\t\t\t\tAAAAAAAAAAAAAAAAAAAAAA0").toList

/-- Chunk 1 of `litR2`. -/
def litR2ch1 : List Char := ("5 /* B.swift in Sources */,\n\t\t\t\tBBBBBBBBBBBBBBBBBBBBBB01 /* AIPluginWindowManager.swift in Sources */,\n\t\t\t\tBBBBBBBBBBBBBBBBBBBBBB03 /* A.swift in Sources */,\n\t\t\t\tBBBBBBBBBBBBBBBBBBBBBB05 /* B.swift in Sources */,);\n\t\t\x7d;\n/* Begin PBXBuildFile section */\n\t\tAAAAAAAAAAAAAAAAAAAAAA01 /* AIPluginWindowManager.swift in Sources */ = \x7bisa = PBXBuildFile; fileRef = AAAAAAAAAAAAAAAAAAAAAA00 /* AIPluginWindowManager.swift */; \x7d;\n\t\tAAAAAAAAAAAAAAAAAAAAAA03 /* A.swift in Sources */ = \x7bisa = PBXBuildFile; file").toList

/-- Chunk 2 of `litR2`. -/
def litR2ch2 : List Char := ("Ref = AAAAAAAAAAAAAAAAAAAAAA02 /* A.swift */; \x7d;\n\t\tAAAAAAAAAAAAAAAAAAAAAA05 /* B.swift in Sources */ = \x7bisa = PBXBuildFile; fileRef = AAAAAAAAAAAAAAAAAAAAAA04 /* B.swift */; \x7d;\n\n\t\tBBBBBBBBBBBBBBBBBBBBBB01 /* AIPluginWindowManager.swift in Sources */ = \x7bisa = PBXBuildFile; fileRef = BBBBBBBBBBBBBBBBBBBBBB00 /* AIPluginWindowManager.swift */; \x7d;\n\t\tBBBBBBBBBBBBBBBBBBBBBB03 /* A.swift in Sources */ = \x7bisa = PBXBuildFile; fileRef = BBBBBBBBBBBBBBBBBBBBBB02 /* A.swift */; \x7d;\n\t\tBBBBBBBBBBBBBBBBBBBBBB05").toList

/-- Chunk 3 of `litR2`. -/
def litR2ch3 : List Char := (" /* B.swift in Sources */ = \x7bisa = PBXBuildFile; fileRef = BBBBBBBBBBBBBBBBBBBBBB04 /* B.swift */; \x7d;\n\n/* End PBXBuildFile section */\n/* Begin PBXFileReference section */\n\t\tAAAAAAAAAAAAAAAAAAAAAA00 /* AIPluginWindowManager.swift */ = \x7bisa = PBXFileReference; lastKnownFileType = sourcecode.swift; name = AIPluginWindowManager.swift; path = sources/AIPluginWindowManager.swift; sourceTree = \"<group>\"; \x7d;\n\t\tAAAAAAAAAAAAAAAAAAAAAA02 /* A.swift */ = \x7bisa = PBXFileReference; lastKnownFileType = sourceco").toList

/-- Chunk 4 of `litR2`. -/
def litR2ch4 : List Char := ("de.swift; name = A.swift; path = sources/AIPlugins/A.swift; sourceTree = \"<group>\"; \x7d;\n\t\tAAAAAAAAAAAAAAAAAAAAAA04 /* B.swift */ = \x7bisa = PBXFileReference; lastKnownFileType = sourcecode.swift; name = B.swift; path = sources/AIPlugins/B.swift; sourceTree = \"<group>\"; \x7d;\n\n\t\tBBBBBBBBBBBBBBBBBBBBBB00 /* AIPluginWindowManager.swift */ = \x7bisa = PBXFileReference; lastKnownFileType = sourcecode.swift; name = AIPluginWindowManager.swift; path = sources/AIPluginWindowManager.swift; sourceTree = \"<group>\";").toList

/-- Chunk 5 of `litR2`. -/
def litR2ch5 : List Char := (" \x7d;\n\t\tBBBBBBBBBBBBBBBBBBBBBB02 /* A.swift */ = \x7bisa = PBXFileReference; lastKnownFileType = sourcecode.swift; name = A.swift; path = sources/AIPlugins/A.swift; sourceTree = \"<group>\"; \x7d;\n\t\tBBBBBBBBBBBBBBBBBBBBBB04 /* B.swift */ = \x7bisa = PBXFileReference; lastKnownFileType = sourcecode.swift; name = B.swift; path = sources/AIPlugins/B.swift; sourceTree = \"<group>\"; \x7d;\n\n/* End PBXFileReference section */\n\x7d\n").toList

/-- The descriptor text written by re-running the tool on `litR1` (length 2908), assembled from its chunks. -/
def litR2 : List Char := litR2ch0 ++ (litR2ch1 ++ (litR2ch2 ++ (litR2ch3 ++ (litR2ch4 ++ (litR2ch5)))))

/-- Chunk 0 of `litR3`. -/
def litR3ch0 : List Char := ("// !$*UTF8*$!\n\x7b\n\t\t080E96DDFE201D6D7F000001 /* Sources */ = \x7b\n\t\t\tisa = PBXGroup;\n\t\t\tchildren = ( \t\n\t\t\t\tCCCCCCCCCCCCCCCCCCCCCC00 /* AIPluginWindowManager.swift */,);\n\t\t\tname = Sources;\n\t\t\x7d;\n\t\t8D11072C0486CEB800E47090 /* Sources */ = \x7b\n\t\t\tisa = PBXSourcesBuildPhase;\n\t\t\tfiles = (\t \n\t\t\t\tCCCCCCCCCCCCCCCCCCCCCC01 /* AIPluginWindowManager.swift in Sources */,);\n\t\t\x7d;\n/* Begin PBXBuildFile section */\n\t\tCCCCCCCCCCCCCCCCCCCCCC01 /* AIPluginWindowManager.swift in Sources */ = \x7bisa = PBXBuildFile; fileRef = C").toList

/-- Chunk 1 of `litR3`. -/
def litR3ch1 : List Char := ("CCCCCCCCCCCCCCCCCCCCC00 /* AIPluginWindowManager.swift */; \x7d;\n\n/* End PBXBuildFile section */\n/* Begin PBXFileReference section */\n\t\tCCCCCCCCCCCCCCCCCCCCCC00 /* AIPluginWindowManager.swift */ = \x7bisa = PBXFileReference; lastKnownFileType = sourcecode.swift; name = AIPluginWindowManager.swift; path = sources/AIPluginWindowManager.swift; sourceTree = \"<group>\"; \x7d;\n\n/* End PBXFileReference section */\n\x7d\n").toList

/-- The descriptor text written by the missing-source-root run (length 902), assembled from its chunks. -/
def litR3 : List Char := litR3ch0 ++ (litR3ch1)

/-- Chunk 0 of `litR7`. -/
def litR7ch0 : List Char := ("// !$*UTF8*$!\n\x7b\n\t\t080E96DDFE201D6D7F000001 /* Sources */ = \x7b\n\t\t\tisa = PBXGroup;\n\t\t\tchildren = ( \t\n\t\t\t\tEEEEEEEEEEEEEEEEEEEEEE00 /* AIPluginWindowManager.swift */,);\n\t\t\tname = Sources;\n\t\t\x7d;\n\t\t8D11072C0486CEB800E47090 /* Sources */ = \x7b\n\t\t\tisa = PBXSourcesBuildPhase;\n\t\t\tfiles = (\t \n\t\t\t\tEEEEEEEEEEEEEEEEEEEEEE01 /* AIPluginWindowManager.swift in Sources */,\n\t\t\t\tEEEEEEEEEEEEEEEEEEEEEE03 /* Foo.swift in Sources */,\n\t\t\t\tEEEEEEEEEEEEEEEEEEEEEE03 /* Foo.swift in Sources */,);\n\t\t\x7d;\n/* Begin PBXBuildFile sec").toList

/-- Chunk 1 of `litR7`. -/
def litR7ch1 : List Char := ("tion */\n\t\tEEEEEEEEEEEEEEEEEEEEEE01 /* AIPluginWindowManager.swift in Sources */ = \x7bisa = PBXBuildFile; fileRef = EEEEEEEEEEEEEEEEEEEEEE00 /* AIPluginWindowManager.swift */; \x7d;\n\t\tEEEEEEEEEEEEEEEEEEEEEE03 /* Foo.swift in Sources */ = \x7bisa = PBXBuildFile; fileRef = EEEEEEEEEEEEEEEEEEEEEE02 /* Foo.swift */; \x7d;\n\t\tEEEEEEEEEEEEEEEEEEEEEE05 /* Foo.swift in Sources */ = \x7bisa = PBXBuildFile; fileRef = EEEEEEEEEEEEEEEEEEEEEE04 /* Foo.swift */; \x7d;\n\n/* End PBXBuildFile section */\n/* Begin PBXFileReference se").toList

/-- Chunk 2 of `litR7`. -/
def litR7ch2 : List Char := ("ction */\n\t\tEEEEEEEEEEEEEEEEEEEEEE00 /* AIPluginWindowManager.swift */ = \x7bisa = PBXFileReference; lastKnownFileType = sourcecode.swift; name = AIPluginWindowManager.swift; path = sources/AIPluginWindowManager.swift; sourceTree = \"<group>\"; \x7d;\n\t\tEEEEEEEEEEEEEEEEEEEEEE02 /* Foo.swift */ = \x7bisa = PBXFileReference; lastKnownFileType = sourcecode.swift; name = Foo.swift; path = sources/AIPlugins/a/Foo.swift; sourceTree = \"<group>\"; \x7d;\n\t\tEEEEEEEEEEEEEEEEEEEEEE04 /* Foo.swift */ = \x7bisa = PBXFileReferenc").toList

/-- Chunk 3 of `litR7`. -/
def litR7ch3 : List Char := ("e; lastKnownFileType = sourcecode.swift; name = Foo.swift; path = sources/AIPlugins/b/Foo.swift; sourceTree = \"<group>\"; \x7d;\n\n/* End PBXFileReference section */\n\x7d\n").toList

/-- The descriptor text written by the duplicate-base-name run `r7` (length 1662), assembled from its chunks. -/
def litR7 : List Char := litR7ch0 ++ (litR7ch1 ++ (litR7ch2 ++ (litR7ch3)))

/-- The document produced by the Sources-group patch on `d6`: BOTH
occurrences of the matched children text have been extended. -/
def d6Patched : List Char := ("A\n\t\t080E96DDFE201D6D7F000001 /* Sources */ = \x7b\n\t\t\tchildren = (QQQ\n\t\t\t\tDDDDDDDDDDDDDDDDDDDDDD00 /* AIPluginWindowManager.swift */,);\n\t\t\x7d;\nnote QQQ\n\t\t\t\tDDDDDDDDDDDDDDDDDDDDDD00 /* AIPluginWindowManager.swift */, end\n").toList

/-- One Sources-group children entry (counted to recognise group-membership
back-references: this text occurs in the scenario documents exactly at the
group children entries — the phase entries carry an extra `in Sources`). -/
def wmChildMark : List Char := (" /* AIPluginWindowManager.swift */,").toList

/-- The tail of one Sources-phase files entry (counted to recognise
phase-membership back-references: rendered build LINES end in
`in Sources */ = ...`, never in `in Sources */,`). -/
def inSourcesEntryMark : List Char := (" in Sources */,").toList


/-! ## Helper lemmas -/

/-- Splitting a list equality at one position: used to verify the long
computed documents against their literal chunks without one deep kernel
evaluation. -/
theorem chunk_split (xs a rest : List Char) (n : Nat) (h1 : xs.take n = a)
    (h2 : xs.drop n = rest) : xs = a ++ rest := by
  rw [← h1, ← h2, List.take_append_drop]

/-- A pattern longer than the text never occurs in it. -/
theorem countOcc_short (pat : List Char) : ∀ s : List Char,
    s.length < pat.length → countOcc pat s = 0 := by
  intro s
  induction s with
  | nil => intro _; rfl
  | cons c cs ih =>
    intro h
    have hpre : pat.isPrefixOf (c :: cs) = false := by
      cases hp : pat.isPrefixOf (c :: cs) with
      | false => rfl
      | true =>
        have hle := (List.isPrefixOf_iff_prefix.mp hp).length_le
        simp only [List.length_cons] at hle h
        exact absurd hle (by omega)
    have htail : countOcc pat cs = 0 := by
      apply ih
      simp only [List.length_cons] at h
      omega
    simp [countOcc, hpre, htail]

/-- A prefix test against `X ++ B` only inspects the first `|pat|` characters,
so `B` may be truncated to `n` characters once `|pat| ≤ |X| + n`. -/
theorem isPrefixOf_append_take : ∀ (pat X B : List Char) (n : Nat),
    pat.length ≤ X.length + n →
    pat.isPrefixOf (X ++ B) = pat.isPrefixOf (X ++ B.take n) := by
  intro pat
  induction pat with
  | nil => intro X B n _; simp
  | cons p ps ih =>
    intro X B n h
    cases X with
    | nil =>
      cases B with
      | nil => simp
      | cons b bs =>
        cases n with
        | zero => simp only [List.length_cons, List.length_nil] at h; exact absurd h (by omega)
        | succ m =>
          have htail := ih [] bs m (by simp only [List.length_cons, List.length_nil] at h ⊢; omega)
          simp only [List.nil_append] at htail ⊢
          show (p == b && ps.isPrefixOf bs) = (p == b && ps.isPrefixOf (bs.take m))
          rw [htail]
    | cons x xs =>
      have htail := ih xs B n (by simp only [List.length_cons] at h ⊢; omega)
      show (p == x && ps.isPrefixOf (xs ++ B)) = (p == x && ps.isPrefixOf (xs ++ B.take n))
      rw [htail]

/-- Occurrence counting splits at a chunk boundary: occurrences starting in
`A` are the occurrences of `pat` in `A` extended with the first `|pat| - 1`
characters of `B` (nothing starting beyond `A` fits in that extension), and
the rest start in `B`. -/
theorem countOcc_append_chunk (pat : List Char) : ∀ (A B : List Char), pat ≠ [] →
    countOcc pat (A ++ B) =
      countOcc pat (A ++ B.take (pat.length - 1)) + countOcc pat B := by
  intro A
  induction A with
  | nil =>
    intro B hne
    simp only [List.nil_append]
    have hz : countOcc pat (B.take (pat.length - 1)) = 0 := by
      apply countOcc_short
      have h1 : 0 < pat.length := List.length_pos.mpr hne
      have h2 : (B.take (pat.length - 1)).length ≤ pat.length - 1 := by
        simp [List.length_take]
      omega
    rw [hz]
    omega
  | cons a A ih =>
    intro B hne
    have h1 : 0 < pat.length := List.length_pos.mpr hne
    have hpre := isPrefixOf_append_take pat (a :: A) B (pat.length - 1)
      (by simp only [List.length_cons]; omega)
    simp only [List.cons_append] at hpre ⊢
    simp only [countOcc]
    rw [hpre, ih B hne]
    omega

/-- `countOcc_append_chunk` iterated over a four-chunk document. -/
theorem countOcc_chunks4 (pat a b c d : List Char) (h : pat ≠ []) :
    countOcc pat (a ++ (b ++ (c ++ d))) =
      countOcc pat (a ++ (b ++ (c ++ d)).take (pat.length - 1)) +
        (countOcc pat (b ++ (c ++ d).take (pat.length - 1)) +
          (countOcc pat (c ++ d.take (pat.length - 1)) + countOcc pat d)) := by
  rw [countOcc_append_chunk pat a (b ++ (c ++ d)) h,
    countOcc_append_chunk pat b (c ++ d) h,
    countOcc_append_chunk pat c d h]

/-- `countOcc_append_chunk` iterated over a six-chunk document. -/
theorem countOcc_chunks6 (pat a b c d e f : List Char) (h : pat ≠ []) :
    countOcc pat (a ++ (b ++ (c ++ (d ++ (e ++ f))))) =
      countOcc pat (a ++ (b ++ (c ++ (d ++ (e ++ f)))).take (pat.length - 1)) +
        (countOcc pat (b ++ (c ++ (d ++ (e ++ f))).take (pat.length - 1)) +
          (countOcc pat (c ++ (d ++ (e ++ f)).take (pat.length - 1)) +
            (countOcc pat (d ++ (e ++ f).take (pat.length - 1)) +
              (countOcc pat (e ++ f.take (pat.length - 1)) + countOcc pat f)))) := by
  rw [countOcc_append_chunk pat a (b ++ (c ++ (d ++ (e ++ f)))) h,
    countOcc_append_chunk pat b (c ++ (d ++ (e ++ f))) h,
    countOcc_append_chunk pat c (d ++ (e ++ f)) h,
    countOcc_append_chunk pat d (e ++ f) h,
    countOcc_append_chunk pat e f h]

/-- The end-to-end run writes exactly `litR1`. -/
theorem r1_written_eq : r1.written = litR1 :=
  chunk_split _ _ _ 500 (by decide)
    (chunk_split _ _ _ 500 (by decide)
      (chunk_split _ _ _ 500 (by decide) (by decide)))

/-- The second run's PBXFileReference-section patch, applied to the first
run's output, produces `litR2s1`. -/
theorem r2_stage1_eq :
    (patchSection beginFileRefMark endFileRefMark litFR2lines msgAddFileRefs litR1).1 =
      litR2s1 :=
  chunk_split _ _ _ 500 (by decide)
    (chunk_split _ _ _ 500 (by decide)
      (chunk_split _ _ _ 500 (by decide)
        (chunk_split _ _ _ 500 (by decide) (by decide))))

/-- The second run's PBXBuildFile-section patch produces `litR2s2`. -/
theorem r2_stage2_eq :
    (patchSection beginBuildMark endBuildMark litBF2lines msgAddBuildRefs litR2s1).1 =
      litR2s2 :=
  chunk_split _ _ _ 500 (by decide)
    (chunk_split _ _ _ 500 (by decide)
      (chunk_split _ _ _ 500 (by decide)
        (chunk_split _ _ _ 500 (by decide)
          (chunk_split _ _ _ 500 (by decide) (by decide)))))

/-- The second run's Sources-group patch produces `litR2s3`. -/
theorem r2_stage3_eq : (patchSourcesGroup (u2 0) litR2s2).1 = litR2s3 :=
  chunk_split _ _ _ 500 (by decide)
    (chunk_split _ _ _ 500 (by decide)
      (chunk_split _ _ _ 500 (by decide)
        (chunk_split _ _ _ 500 (by decide)
          (chunk_split _ _ _ 500 (by decide) (by decide)))))

/-- The second run's Sources-phase patch produces `litR2`. -/
theorem r2_stage4_eq :
    (patchSourcesPhase (u2 1) [("A.swift").toList, ("B.swift").toList] litBF2lines
        litR2s3).1 = litR2 :=
  chunk_split _ _ _ 500 (by decide)
    (chunk_split _ _ _ 500 (by decide)
      (chunk_split _ _ _ 500 (by decide)
        (chunk_split _ _ _ 500 (by decide)
          (chunk_split _ _ _ 500 (by decide) (by decide)))))

/-- The second end-to-end run writes exactly `litR2`. -/
theorem r2run_written_eq : r2run.written = litR2 := by
  have h : r2run = run_patch litR1 (some srcT1) none u2 := by
    rw [r2run, r1_written_eq]
  rw [h]
  show (patchSourcesPhase (u2 1) (find_all_swift_files (some srcT1))
      ((all_build_recs (find_all_swift_files (some srcT1)) u2).map renderBuildRef)
      (patchSourcesGroup (u2 0)
        (patchSection beginBuildMark endBuildMark
          ((all_build_recs (find_all_swift_files (some srcT1)) u2).map renderBuildRef)
          msgAddBuildRefs
          (patchSection beginFileRefMark endFileRefMark
            (renderWmFileRef (u2 0) ::
              (synthLoop (find_all_swift_files (some srcT1)) u2 2).1.map renderFileRef)
            msgAddFileRefs litR1).1).1).1).1 = litR2
  have hswift : find_all_swift_files (some srcT1) =
      [("A.swift").toList, ("B.swift").toList] := by decide
  rw [hswift]
  have hlines : renderWmFileRef (u2 0) ::
      (synthLoop [("A.swift").toList, ("B.swift").toList] u2 2).1.map renderFileRef =
        litFR2lines := by decide
  have hbrefs : (all_build_recs [("A.swift").toList, ("B.swift").toList] u2).map
      renderBuildRef = litBF2lines := by decide
  rw [hlines, hbrefs, r2_stage1_eq, r2_stage2_eq, r2_stage3_eq, r2_stage4_eq]

/-- The missing-source-root run writes exactly `litR3`. -/
theorem r3run_written_eq : r3run.written = litR3 :=
  chunk_split _ _ _ 500 (by decide) (by decide)

/-- The duplicate-base-name run writes exactly `litR7`. -/
theorem r7_written_eq : r7.written = litR7 :=
  chunk_split _ _ _ 500 (by decide)
    (chunk_split _ _ _ 500 (by decide)
      (chunk_split _ _ _ 500 (by decide) (by decide)))

/-! ## Claims -/

/-- C1 (counterexample): in the end-to-end scenario (descriptor `d1` with
well-formed empty instances of all four target sections, source directory
with exactly the two files `A.swift` and `B.swift`), the group-membership
list does NOT receive 3 new back-references: the run adds only the
distinguished extra file's back-reference to the Sources group's children
list, so the group-membership list gains exactly 1 entry, not 3 as claimed. -/
theorem c1_counterexample :
    countOcc entryCommaMark (groupChildrenRegion r1.written) ≠ 3 := by
  rw [r1_written_eq]
  decide

/-- C1 (amended): in the end-to-end scenario, one run yields a descriptor
whose declaration section contains exactly 3 new FileReference entries,
whose registration section contains exactly 3 new BuildFileMembership
entries, whose phase-membership list contains exactly 3 new back-references,
but whose group-membership list contains exactly 1 new back-reference — the
distinguished extra file's identifier only; the reported summary counts
3 added source files. -/
theorem c1_amended_thm :
    countOcc fileRefIsaMark (declRegion r1.written) = 3 ∧
    countOcc buildFileIsaMark (buildRegion r1.written) = 3 ∧
    countOcc entryCommaMark (groupChildrenRegion r1.written) = 1 ∧
    countOcc entryCommaMark (phaseFilesRegion r1.written) = 3 ∧
    countOcc (u1 0) (groupChildrenRegion r1.written) = 1 ∧
    r1.sourcesAdded = 3 :=
  ⟨by rw [r1_written_eq]; decide, by rw [r1_written_eq]; decide,
   by rw [r1_written_eq]; decide, by rw [r1_written_eq]; decide,
   by rw [r1_written_eq]; decide, by decide⟩

/-- C8: re-running the tool a second time against the already-patched
descriptor of the end-to-end scenario duplicates every added entry: no
existing-entry check is performed, so with all anchors still present the
second run (drawing fresh identifiers) appends the same number of new
record lines again and every entry count doubles — FileReference
declarations 3 to 6, BuildFileMembership registrations 3 to 6,
group-membership back-references 1 to 2, phase-membership back-references
3 to 6.  (Counts are taken over the whole document with markers that occur
exactly in the corresponding records: `isa = PBXFileReference;` only in
declaration lines, `isa = PBXBuildFile;` only in registration lines, a
`*/,`-terminated window-manager reference only in the group children list,
and an `in Sources */,` tail only in phase-list entries.) -/
theorem c8_thm :
    countOcc fileRefIsaMark r1.written = 3 ∧
    countOcc buildFileIsaMark r1.written = 3 ∧
    countOcc wmChildMark r1.written = 1 ∧
    countOcc inSourcesEntryMark r1.written = 3 ∧
    countOcc fileRefIsaMark r2run.written = 6 ∧
    countOcc buildFileIsaMark r2run.written = 6 ∧
    countOcc wmChildMark r2run.written = 2 ∧
    countOcc inSourcesEntryMark r2run.written = 6 :=
  ⟨by rw [r1_written_eq]
      show countOcc fileRefIsaMark (litR1ch0 ++ (litR1ch1 ++ (litR1ch2 ++ litR1ch3))) = 3
      rw [countOcc_chunks4 _ _ _ _ _ (by decide)]
      decide,
   by rw [r1_written_eq]
      show countOcc buildFileIsaMark (litR1ch0 ++ (litR1ch1 ++ (litR1ch2 ++ litR1ch3))) = 3
      rw [countOcc_chunks4 _ _ _ _ _ (by decide)]
      decide,
   by rw [r1_written_eq]
      show countOcc wmChildMark (litR1ch0 ++ (litR1ch1 ++ (litR1ch2 ++ litR1ch3))) = 1
      rw [countOcc_chunks4 _ _ _ _ _ (by decide)]
      decide,
   by rw [r1_written_eq]
      show countOcc inSourcesEntryMark (litR1ch0 ++ (litR1ch1 ++ (litR1ch2 ++ litR1ch3))) = 3
      rw [countOcc_chunks4 _ _ _ _ _ (by decide)]
      decide,
   by rw [r2run_written_eq]
      show countOcc fileRefIsaMark
        (litR2ch0 ++ (litR2ch1 ++ (litR2ch2 ++ (litR2ch3 ++ (litR2ch4 ++ litR2ch5))))) = 6
      rw [countOcc_chunks6 _ _ _ _ _ _ _ (by decide)]
      decide,
   by rw [r2run_written_eq]
      show countOcc buildFileIsaMark
        (litR2ch0 ++ (litR2ch1 ++ (litR2ch2 ++ (litR2ch3 ++ (litR2ch4 ++ litR2ch5))))) = 6
      rw [countOcc_chunks6 _ _ _ _ _ _ _ (by decide)]
      decide,
   by rw [r2run_written_eq]
      show countOcc wmChildMark
        (litR2ch0 ++ (litR2ch1 ++ (litR2ch2 ++ (litR2ch3 ++ (litR2ch4 ++ litR2ch5))))) = 2
      rw [countOcc_chunks6 _ _ _ _ _ _ _ (by decide)]
      decide,
   by rw [r2run_written_eq]
      show countOcc inSourcesEntryMark
        (litR2ch0 ++ (litR2ch1 ++ (litR2ch2 ++ (litR2ch3 ++ (litR2ch4 ++ litR2ch5))))) = 6
      rw [countOcc_chunks6 _ _ _ _ _ _ _ (by decide)]
      decide⟩

/-- C3 (counterexample): with a missing source-root directory (`none`), the
run does NOT abort before mutation: it completes without an exception and
the descriptor it writes back differs from the original — discovery
silently yields nothing instead of surfacing a fatal failure. -/
theorem c3_counterexample :
    runOk r3res = true ∧ writtenOf r3res ≠ some d1 := by
  constructor
  · rfl
  · have h : writtenOf r3res = some r3run.written := rfl
    rw [h, r3run_written_eq]
    decide

/-- C3 (amended): when the source root is missing or unreadable, `os.walk`
(with its default `onerror=None`) silently yields nothing, so discovery
returns the empty list and no failure is surfaced; the run then proceeds
normally: all four regions are still patched — the declaration section
receives the distinguished extra file's FileReference — and the mutated
descriptor is written back. -/
theorem c3_amended_thm :
    find_all_swift_files none = [] ∧
    runOk r3res = true ∧
    msgsOf r3res = [msgAddFileRefs, msgAddBuildRefs, msgAddGroup, msgAddPhase] ∧
    countOcc fileRefIsaMark (declRegion (writtenOr r3res)) = 1 ∧
    writtenOf r3res ≠ some d1 := by
  refine ⟨rfl, rfl, ?_, ?_, ?_⟩
  · have h : msgsOf r3res = r3run.patchMsgs := rfl
    rw [h]
    decide
  · have h : writtenOr r3res = r3run.written := rfl
    rw [h, r3run_written_eq]
    decide
  · have h : writtenOf r3res = some r3run.written := rfl
    rw [h, r3run_written_eq]
    decide

/-- C7: the phase-membership loop looks the build identifier up by checking
whether the file's BASE NAME occurs as a substring of a rendered build line,
taking the first hit.  On the failing input — a source tree holding both
`a/Foo.swift` and `b/Foo.swift` — both files hit the first `Foo.swift`
build line, so the first file's build identifier (`u7 3`) is inserted into
the phase list TWICE while the second file's (`u7 5`) never is, although
its PBXBuildFile record exists; this contradicts the invariant (and the
code's own intent of finding the corresponding identifier). -/
theorem c7_bug_eval :
    countOcc (u7 3) (phaseFilesRegion r7.written) = 2 ∧
    countOcc (u7 5) (phaseFilesRegion r7.written) = 0 ∧
    countOcc (u7 5) (buildRegion r7.written) = 1 :=
  ⟨by rw [r7_written_eq]; decide, by rw [r7_written_eq]; decide,
   by rw [r7_written_eq]; decide⟩

/-- C6 (counterexample): region replacement is NOT first-match-only.  In
`d6` the matched children text `QQQ` occurs a second time, verbatim, in the
trailing text `note QQQ end`; after the patch that trailing text has been
modified as well (the literal `note QQQ end` no longer occurs), so a second
occurrence of identical-looking content elsewhere in the document IS
modified. -/
theorem c6_counterexample :
    occursIn (("note QQQ end").toList) d6 = true ∧
    occursIn (("note QQQ end").toList) (patchSourcesGroup uD d6).1 = false := by
  constructor
  · decide
  · decide

/-- C6 (amended): the replacement is exact substring replacement applied to
EVERY occurrence of the matched text (Python `str.replace`): on `d6` both
occurrences of the children text `QQQ` are extended with the new
back-reference, so the inserted identifier appears twice in the result. -/
theorem c6_amended_thm :
    (patchSourcesGroup uD d6).1 = d6Patched ∧
    countOcc uD (patchSourcesGroup uD d6).1 = 2 := by
  constructor
  · decide
  · decide

/-- C2 (counterexample): an unhandled failure (here: the descriptor file is
missing, so `read_pbxproj` raises) does NOT produce a non-zero exit status:
the top-level handler prints the error and the traceback but never calls
`sys.exit`, so the interpreter exits with status 0. -/
theorem c2_counterexample :
    add_files_to_project none none none u1 = Except.error ("FileNotFoundError") ∧
    main_exit_code (add_files_to_project none none none u1) = 0 ∧
    main_prints_trace (add_files_to_project none none none u1) = true := by
  refine ⟨rfl, rfl, rfl⟩

/-- C2 (amended): the process terminates with exit status 0 in every run,
whether or not an unhandled failure occurred; a diagnostic trace is printed
exactly when `add_files_to_project` raised (here: when the descriptor file
is missing, the only exception source in the model). -/
theorem c2_amended_thm :
    ∀ (df : Option (List Char)) (s r : Option FSTree) (u : Nat → List Char),
      main_exit_code (add_files_to_project df s r u) = 0 ∧
      main_prints_trace (add_files_to_project df s r u) = df.isNone := by
  intro df s r u
  cases df with
  | none => exact ⟨rfl, rfl⟩
  | some c => exact ⟨rfl, rfl⟩

/-- A begin/end section patch whose begin anchor does not occur leaves the
document unchanged and prints nothing. -/
theorem patchSection_absent (beginM endM : List Char) (lines : List (List Char))
    (m : String) (content : List Char) (h : occursIn beginM content = false) :
    patchSection beginM endM lines m content = (content, []) := by
  have hf : findFrom content beginM 0 = none := by
    cases hfc : findFrom content beginM 0 with
    | none => rfl
    | some v => rw [occursIn, hfc] at h; simp at h
  simp [patchSection, matchBeginEnd, hf]

/-- The Sources-group patch with an absent header anchor leaves the document
unchanged and prints nothing. -/
theorem patchSourcesGroup_absent (wm content : List Char)
    (h : occursIn sourcesGroupHeader content = false) :
    patchSourcesGroup wm content = (content, []) := by
  have hf : findFrom content sourcesGroupHeader 0 = none := by
    cases hfc : findFrom content sourcesGroupHeader 0 with
    | none => rfl
    | some v => rw [occursIn, hfc] at h; simp at h
  simp [patchSourcesGroup, matchKeyList, hf]

/-- The Sources-phase patch with an absent header anchor leaves the document
unchanged and prints nothing. -/
theorem patchSourcesPhase_absent (wmB : List Char) (fs brs : List (List Char))
    (content : List Char) (h : occursIn sourcesPhaseHeader content = false) :
    patchSourcesPhase wmB fs brs content = (content, []) := by
  have hf : findFrom content sourcesPhaseHeader 0 = none := by
    cases hfc : findFrom content sourcesPhaseHeader 0 with
    | none => rfl
    | some v => rw [occursIn, hfc] at h; simp at h
  simp [patchSourcesPhase, matchKeyList, hf]

/-- C4 (amended): for every target region whose locating anchor is absent,
the patch step leaves the whole document unmodified and does not abort the
run — but it surfaces NO warning: the `if match:` block is silently skipped
and nothing at all is printed for that region (only successful patches print
a line). -/
theorem c4_amended_thm :
    (∀ (content : List Char) (lines : List (List Char)) (m : String),
      occursIn beginFileRefMark content = false →
      patchSection beginFileRefMark endFileRefMark lines m content = (content, [])) ∧
    (∀ (content : List Char) (lines : List (List Char)) (m : String),
      occursIn beginBuildMark content = false →
      patchSection beginBuildMark endBuildMark lines m content = (content, [])) ∧
    (∀ (content wm : List Char),
      occursIn sourcesGroupHeader content = false →
      patchSourcesGroup wm content = (content, [])) ∧
    (∀ (content wmB : List Char) (fs brs : List (List Char)),
      occursIn sourcesPhaseHeader content = false →
      patchSourcesPhase wmB fs brs content = (content, [])) :=
  ⟨fun content lines m h => patchSection_absent _ _ lines m content h,
   fun content lines m h => patchSection_absent _ _ lines m content h,
   fun content wm h => patchSourcesGroup_absent wm content h,
   fun content wmB fs brs h => patchSourcesPhase_absent wmB fs brs content h⟩

/-- C4 (witness): the four parts of `c4_amended_thm` applied to a concrete
document that contains none of the anchors. -/
theorem c4_witness :
    patchSection beginFileRefMark endFileRefMark [] msgAddFileRefs (("x").toList) =
      (("x").toList, []) ∧
    patchSection beginBuildMark endBuildMark [] msgAddBuildRefs (("x").toList) =
      (("x").toList, []) ∧
    patchSourcesGroup uD (("x").toList) = (("x").toList, []) ∧
    patchSourcesPhase uD [] [] (("x").toList) = (("x").toList, []) :=
  ⟨c4_amended_thm.1 _ [] _ (by decide),
   c4_amended_thm.2.1 _ [] _ (by decide),
   c4_amended_thm.2.2.1 _ uD (by decide),
   c4_amended_thm.2.2.2 _ uD [] [] (by decide)⟩

/-- C4 (counterexample): on a document containing none of the anchors, a
full run leaves the document unmodified, does not abort — and surfaces NO
warning: the run's patch blocks print nothing at all, contradicting the
claim that a warning reporting each missing region is surfaced. -/
theorem c4_counterexample :
    (run_patch (("hello").toList) none none u1).patchMsgs = [] ∧
    (run_patch (("hello").toList) none none u1).written = ("hello").toList := by
  refine ⟨by decide, by decide⟩

/-- The per-file loop of record synthesis: every build record produced by
`synthLoop` back-references a file record produced by the same loop. -/
theorem synthLoop_fileRef_mem (files : List (List Char)) (u : Nat → List Char) :
    ∀ (k : Nat) (b : BuildRefRec), b ∈ (synthLoop files u k).2 →
      b.fileRef ∈ (synthLoop files u k).1.map (fun r => r.uuid) := by
  induction files with
  | nil => intro k b hb; simp [synthLoop] at hb
  | cons f fs ih =>
    intro k b hb
    simp only [synthLoop, List.mem_cons, List.map_cons] at hb ⊢
    rcases hb with h | h
    · left; rw [h]
    · right; exact ih (k + 2) b h

/-- C9: referential integrity of synthesis — every `PBXBuildFile` record
synthesized in a run (the window manager's and one per discovered file)
back-references the identifier of some `PBXFileReference` record
synthesized in the same run. -/
theorem c9_thm :
    ∀ (files : List (List Char)) (u : Nat → List Char) (b : BuildRefRec),
      b ∈ all_build_recs files u → b.fileRef ∈ all_file_ref_ids files u := by
  intro files u b hb
  simp only [all_build_recs, List.mem_cons] at hb
  rcases hb with h | h
  · rw [h]
    simp [all_file_ref_ids]
  · simp only [all_file_ref_ids, List.mem_cons]
    right
    exact synthLoop_fileRef_mem files u 2 b h

/-- C9 (witness): `c9_thm` applied to the window manager's build record in
a one-file run. -/
theorem c9_witness :
    (⟨u1 1, u1 0, ("AIPluginWindowManager.swift").toList⟩ : BuildRefRec).fileRef ∈
      all_file_ref_ids [("A.swift").toList] u1 :=
  c9_thm [("A.swift").toList] u1 _ (by decide)

/-- C10: the resource directory's contents never influence the descriptor
text that is written back (nor the patch messages, nor the source count):
two runs identical except for the resource tree produce byte-for-byte the
same written document; the resources are only counted for the summary. -/
theorem c10_thm :
    ∀ (content : List Char) (srcFS resA resB : Option FSTree) (u : Nat → List Char),
      (run_patch content srcFS resA u).written = (run_patch content srcFS resB u).written ∧
      (run_patch content srcFS resA u).patchMsgs = (run_patch content srcFS resB u).patchMsgs ∧
      (run_patch content srcFS resA u).sourcesAdded = (run_patch content srcFS resB u).sourcesAdded ∧
      (run_patch content srcFS resA u).resourcesFound =
        (find_all_resource_files resources_dir resA).length := by
  intro content srcFS resA resB u
  exact ⟨rfl, rfl, rfl, rfl⟩

/-- Strict string comparison is irreflexive. -/
theorem strLtB_irrefl : ∀ a : List Char, strLtB a a = false := by
  intro a
  induction a with
  | nil => rfl
  | cons x xs ih =>
    simp [strLtB, lt_irrefl, ih]

/-- Two strings neither of which is strictly below the other are equal. -/
theorem strLtB_eq_of_not : ∀ a b : List Char,
    strLtB a b = false → strLtB b a = false → a = b := by
  intro a
  induction a with
  | nil =>
    intro b h1 _
    cases b with
    | nil => rfl
    | cons y ys => simp [strLtB] at h1
  | cons x xs ih =>
    intro b h1 h2
    cases b with
    | nil => simp [strLtB] at h2
    | cons y ys =>
      by_cases hxy : x < y
      · simp [strLtB, hxy] at h1
      · by_cases hyx : y < x
        · simp [strLtB, hyx] at h2
        · have hx : x = y := le_antisymm (not_lt.mp hyx) (not_lt.mp hxy)
          simp [strLtB, hxy, hyx] at h1 h2
          rw [hx, ih ys h1 h2]

/-- Strict string comparison is transitive. -/
theorem strLtB_trans : ∀ a b c : List Char,
    strLtB a b = true → strLtB b c = true → strLtB a c = true := by
  intro a
  induction a with
  | nil =>
    intro b c h1 h2
    cases c with
    | nil =>
      cases b with
      | nil => exact h1
      | cons y ys => simp [strLtB] at h2
    | cons z zs => rfl
  | cons x xs ih =>
    intro b c h1 h2
    cases b with
    | nil => simp [strLtB] at h1
    | cons y ys =>
      cases c with
      | nil => simp [strLtB] at h2
      | cons z zs =>
        by_cases hxy : x < y
        · by_cases hyz : y < z
          · simp [strLtB, lt_trans hxy hyz]
          · by_cases hzy : z < y
            · simp [strLtB, hyz, hzy] at h2
            · have heq : y = z := le_antisymm (not_lt.mp hzy) (not_lt.mp hyz)
              have hxz : x < z := heq ▸ hxy
              simp [strLtB, hxz]
        · by_cases hyx : y < x
          · simp [strLtB, hxy, hyx] at h1
          · have hxyeq : x = y := le_antisymm (not_lt.mp hyx) (not_lt.mp hxy)
            simp [strLtB, hxy, hyx] at h1
            by_cases hyz : y < z
            · have hxz : x < z := hxyeq ▸ hyz
              simp [strLtB, hxz]
            · by_cases hzy : z < y
              · simp [strLtB, hyz, hzy] at h2
              · have hyzeq : y = z := le_antisymm (not_lt.mp hzy) (not_lt.mp hyz)
                simp [strLtB, hyz, hzy] at h2
                have hxz1 : ¬ x < z := by rw [hxyeq, hyzeq]; exact lt_irrefl z
                have hxz2 : ¬ z < x := by rw [hxyeq, hyzeq]; exact lt_irrefl z
                simp [strLtB, hxz1, hxz2, ih ys zs h1 h2]

/-- Non-strict string comparison is total. -/
theorem strLeB_total : ∀ a b : List Char, strLeB a b = true ∨ strLeB b a = true := by
  intro a
  induction a with
  | nil => intro b; left; rfl
  | cons x xs ih =>
    intro b
    cases b with
    | nil => right; rfl
    | cons y ys =>
      by_cases hxy : x < y
      · left; simp [strLeB, hxy]
      · by_cases hyx : y < x
        · right; simp [strLeB, hyx]
        · rcases ih ys with h | h
          · left; simp [strLeB, hxy, hyx, h]
          · right; simp [strLeB, hxy, hyx, h]

/-- Non-strict string comparison is transitive. -/
theorem strLeB_trans : ∀ a b c : List Char,
    strLeB a b = true → strLeB b c = true → strLeB a c = true := by
  intro a
  induction a with
  | nil => intro b c _ _; rfl
  | cons x xs ih =>
    intro b c hab hbc
    cases b with
    | nil => simp [strLeB] at hab
    | cons y ys =>
      cases c with
      | nil => simp [strLeB] at hbc
      | cons z zs =>
        by_cases hxy : x < y
        · by_cases hyz : y < z
          · simp [strLeB, lt_trans hxy hyz]
          · by_cases hzy : z < y
            · simp [strLeB, hyz, hzy] at hbc
            · have heq : y = z := le_antisymm (not_lt.mp hzy) (not_lt.mp hyz)
              have hxz : x < z := heq ▸ hxy
              simp [strLeB, hxz]
        · by_cases hyx : y < x
          · simp [strLeB, hxy, hyx] at hab
          · have hxyeq : x = y := le_antisymm (not_lt.mp hyx) (not_lt.mp hxy)
            simp [strLeB, hxy, hyx] at hab
            by_cases hyz : y < z
            · have hxz : x < z := hxyeq ▸ hyz
              simp [strLeB, hxz]
            · by_cases hzy : z < y
              · simp [strLeB, hyz, hzy] at hbc
              · have hyzeq : y = z := le_antisymm (not_lt.mp hzy) (not_lt.mp hyz)
                simp [strLeB, hyz, hzy] at hbc
                have hxz1 : ¬ x < z := by rw [hxyeq, hyzeq]; exact lt_irrefl z
                have hxz2 : ¬ z < x := by rw [hxyeq, hyzeq]; exact lt_irrefl z
                simp [strLeB, hxz1, hxz2, ih ys zs hab hbc]

/-- The tuple order used for resource sorting is total. -/
theorem pairLeB_total : ∀ x y : List Char × List Char,
    pairLeB x y = true ∨ pairLeB y x = true := by
  intro x y
  cases h1 : strLtB x.1 y.1 with
  | true => left; simp [pairLeB, h1]
  | false =>
    cases h2 : strLtB y.1 x.1 with
    | true => right; simp [pairLeB, h2]
    | false =>
      rcases strLeB_total x.2 y.2 with h | h
      · left; simp [pairLeB, h1, h2, h]
      · right; simp [pairLeB, h1, h2, h]

/-- The tuple order used for resource sorting is transitive. -/
theorem pairLeB_trans : ∀ x y z : List Char × List Char,
    pairLeB x y = true → pairLeB y z = true → pairLeB x z = true := by
  intro x y z hxy hyz
  cases h1 : strLtB x.1 y.1 with
  | true =>
    cases h2 : strLtB y.1 z.1 with
    | true => simp [pairLeB, strLtB_trans _ _ _ h1 h2]
    | false =>
      cases h3 : strLtB z.1 y.1 with
      | true => simp [pairLeB, h2, h3] at hyz
      | false =>
        have hyzeq : y.1 = z.1 := strLtB_eq_of_not _ _ h2 h3
        have hlt : strLtB x.1 z.1 = true := by rw [← hyzeq]; exact h1
        simp [pairLeB, hlt]
  | false =>
    cases h1b : strLtB y.1 x.1 with
    | true => simp [pairLeB, h1, h1b] at hxy
    | false =>
      have hxyeq : x.1 = y.1 := strLtB_eq_of_not _ _ h1 h1b
      simp [pairLeB, h1, h1b] at hxy
      cases h2 : strLtB y.1 z.1 with
      | true =>
        have hlt : strLtB x.1 z.1 = true := by rw [hxyeq]; exact h2
        simp [pairLeB, hlt]
      | false =>
        cases h3 : strLtB z.1 y.1 with
        | true => simp [pairLeB, h2, h3] at hyz
        | false =>
          have hyzeq : y.1 = z.1 := strLtB_eq_of_not _ _ h2 h3
          simp [pairLeB, h2, h3] at hyz
          have e1 : strLtB x.1 z.1 = false := by rw [hxyeq, hyzeq]; exact strLtB_irrefl z.1
          have e2 : strLtB z.1 x.1 = false := by rw [hxyeq, hyzeq]; exact strLtB_irrefl z.1
          simp [pairLeB, e1, e2, strLeB_trans _ _ _ hxy hyz]

mutual
/-- Every Directory-kind pair emitted by the resource walk has a path ending
in `.lproj` (or is the root `"."` of a walk whose top directory ends in
`.lproj`): Directory-kind resources arise only from the `.lproj` branch. -/
theorem walkRes_folder_suffix (top : List Char) (rel : Option (List Char)) (t : FSTree) :
    ∀ p : List Char, (p, ("folder").toList) ∈ walkRes top rel t →
      (p = (".").toList ∧ (".lproj").toList.isSuffixOf top = true) ∨
        (".lproj").toList.isSuffixOf p = true := by
  cases t with
  | node fs ds =>
    intro p hp
    rw [walkRes] at hp
    rcases List.mem_append.mp hp with h | h
    · cases hl : pathEndsLproj top rel with
      | true =>
        rw [hl] at h
        simp only [if_true, List.mem_singleton, Prod.mk.injEq] at h
        cases rel with
        | none =>
          left
          exact ⟨h.1, hl⟩
        | some r =>
          right
          rw [h.1]
          exact hl
      | false =>
        rw [hl] at h
        rw [if_neg (by decide : ¬ (false = true))] at h
        rcases List.mem_filterMap.mp h with ⟨f, _, hmap⟩
        by_cases hm : matchesResourceExt f
        · rw [if_pos hm] at hmap
          have : ("file").toList = ("folder").toList :=
            congrArg Prod.snd (Option.some.inj hmap)
          exact absurd this (by decide)
        · rw [if_neg hm] at hmap
          cases hmap
    · exact walkResDirs_folder_suffix top rel ds p h
/-- `walkRes_folder_suffix` over a subdirectory list. -/
theorem walkResDirs_folder_suffix (top : List Char) (rel : Option (List Char)) (ds : FSDirList) :
    ∀ p : List Char, (p, ("folder").toList) ∈ walkResDirs top rel ds →
      (p = (".").toList ∧ (".lproj").toList.isSuffixOf top = true) ∨
        (".lproj").toList.isSuffixOf p = true := by
  cases ds with
  | nil =>
    intro p hp
    rw [walkResDirs] at hp
    simp at hp
  | cons n t rest =>
    intro p hp
    rw [walkResDirs] at hp
    rcases List.mem_append.mp hp with h | h
    · exact walkRes_folder_suffix top (some (joinRel rel n)) t p h
    · exact walkResDirs_folder_suffix top rel rest p h
end

/-- C5 (amended): for every directory tree, the discovered resources are
sorted in the tuple order; every Directory-kind resource is a `.lproj`
directory (its relative path — or the top directory for the root — ends in
`.lproj`); but a `.lproj` directory is NOT a barrier for the walk: on the
demonstration tree, `en.lproj` is emitted as a Directory-kind resource and
its direct file `Localizable.strings` is skipped, yet the walk still
descends into its subdirectory `sub` and emits `en.lproj/sub/x.js` as a
File-kind resource. -/
theorem c5_amended_thm :
    (∀ (top : List Char) (o : Option FSTree),
      List.Sorted pairRel (find_all_resource_files top o)) ∧
    (∀ (top : List Char) (t : FSTree) (p : List Char),
      (p, ("folder").toList) ∈ find_all_resource_files top (some t) →
      (p = (".").toList ∧ (".lproj").toList.isSuffixOf top = true) ∨
        (".lproj").toList.isSuffixOf p = true) ∧
    find_all_resource_files resources_dir (some resT5) =
      [(("en.lproj").toList, ("folder").toList),
       (("en.lproj/sub/x.js").toList, ("file").toList)] := by
  refine ⟨?_, ?_, ?_⟩
  · intro top o
    cases o with
    | none => exact List.sorted_nil
    | some t =>
      haveI : IsTotal (List Char × List Char) pairRel := ⟨fun x y => pairLeB_total x y⟩
      haveI : IsTrans (List Char × List Char) pairRel := ⟨fun x y z => pairLeB_trans x y z⟩
      exact List.sorted_insertionSort pairRel _
  · intro top t p hp
    have hp' : (p, ("folder").toList) ∈ walkRes top none t := by
      rw [find_all_resource_files, sortPairs] at hp
      exact (List.mem_insertionSort pairRel).mp hp
    exact walkRes_folder_suffix top none t p hp'
  · decide

/-- C5 (witness): the second part of `c5_amended_thm` applied to the emitted
`en.lproj` Directory-kind pair of the demonstration tree. -/
theorem c5_witness :
    (("en.lproj").toList = (".").toList ∧
        (".lproj").toList.isSuffixOf resources_dir = true) ∨
      (".lproj").toList.isSuffixOf (("en.lproj").toList) = true :=
  c5_amended_thm.2.1 resources_dir resT5 (("en.lproj").toList) (by decide)

/-- C5 (counterexample): discovery DOES descend beneath a bundle directory:
on a tree whose `en.lproj` directory contains a subdirectory `sub` with the
file `x.js`, the pair `(en.lproj/sub/x.js, file)` is emitted even though it
lies beneath the `.lproj` directory — so the claim that no file or
directory beneath an emitted `.lproj` directory is emitted is false. -/
theorem c5_counterexample :
    (("en.lproj/sub/x.js").toList, ("file").toList) ∈
      find_all_resource_files resources_dir (some resT5) ∧
    find_all_resource_files resources_dir (some resT5) ≠
      [(("en.lproj").toList, ("folder").toList)] := by
  refine ⟨by decide, by decide⟩
